import Mathlib

/-!
Shallow embedding of the `k3s-deploy-cli` repository core
(`src/k3s_deploy_cli/k3s_manager.py`, `src/k3s_deploy_cli/proxmox_api.py`,
`src/k3s_deploy_cli/models.py`, `src/k3s_deploy_cli/config.py`), together
with theorems about node discovery, role partitioning, the IP-convergence
loop, the lifecycle controller, the config-file loader and SSH-key
resolution.

External effects (Proxmox API round trips, the filesystem) are modelled as
explicit oracle inputs: each remote call site takes the call's result as a
parameter (`Except Unit _` for calls that can raise, plain data otherwise),
so one Lean evaluation corresponds to one concrete execution trace of the
Python code.
-/

namespace K3sDeploy

/-! ## Python JSON values

`json.load` produces arbitrary JSON values; the config-file loader and the
SSH-key resolver consume them dynamically.  `Json` models the decoded value
space; the helper functions model the exact Python operations the source
performs on those values (`dict.get`, truthiness, iteration, `str(...)`).
-/

inductive Json where
  | null : Json
  | bool (b : Bool) : Json
  | num (n : Int) : Json
  | str (s : String) : Json
  | arr (elems : List Json) : Json
  | obj (fields : List (String × Json)) : Json

/-- Python truthiness of a decoded JSON value: `None`, `False`, `0`, `""`,
`[]` and `{}` are falsy, everything else is truthy. -/
def pyTruthy : Json → Bool
  | .null => false
  | .bool b => b
  | .num n => n != 0
  | .str s => s != ""
  | .arr elems => !elems.isEmpty
  | .obj fields => !fields.isEmpty

/-- Whether a decoded JSON object has a field named `k`.  Models Python's
`k in data` for dict values; for non-dict values the membership tests the
source performs never succeed on the inputs of interest (a `k in` test on a
list compares elements, on anything else it is false or a `TypeError`),
so they are modelled as `false`. -/
def pyHasKey (v : Json) (k : String) : Bool :=
  match v with
  | .obj fields => (fields.lookup k).isSome
  | _ => false

/-- Python `data.get(k, d)` on a decoded JSON value.  On a dict it returns
the binding of `k` (parsed dicts have unique keys) or the default `d`; on
any other value Python raises `AttributeError`, modelled as `.error`. -/
def pyGetD (v : Json) (k : String) (d : Json) : Except Unit Json :=
  match v with
  | .obj fields => .ok ((fields.lookup k).getD d)
  | _ => .error ()

/-- Python `data[k]` on a decoded JSON dict (used by `_get_ssh_public_key`
only after `"ssh_key" in data` succeeded, so the key is present). -/
def pySubscript (v : Json) (k : String) : Json :=
  match v with
  | .obj fields => (fields.lookup k).getD .null
  | _ => .null

/-- Python `for x in v` over a decoded JSON value: lists iterate elements,
strings iterate one-character strings, dicts iterate keys; `None`, numbers
and booleans raise `TypeError`, modelled as `.error`. -/
def pyIter (v : Json) : Except Unit (List Json) :=
  match v with
  | .arr elems => .ok elems
  | .str s => .ok (s.data.map fun c => .str (String.singleton c))
  | .obj fields => .ok (fields.map fun kv => .str kv.1)
  | _ => .error ()

/-- Python `str(...)` of a decoded JSON value.  Scalars render as in
Python; container reprs are abbreviated (they contain brackets either way,
so they can never match a role-tag comparison in the loader, which is the
only consumer). -/
def pyStr : Json → String
  | .str s => s
  | .num n => toString n
  | .null => "None"
  | .bool true => "True"
  | .bool false => "False"
  | .arr _ => "[...]"
  | .obj _ => "\x7b...\x7d"

/-- Python `==` between decoded JSON scalar values, as used by `set()`
deduplication: `None`/booleans/numbers/strings compare by value, and
`True == 1`, `False == 0` (bool is an int subtype).  Containers are
unhashable in Python, so values reaching a `set()` are scalars only;
container comparisons are modelled as `false`. -/
def pyScalarEq : Json → Json → Bool
  | .null, .null => true
  | .bool a, .bool b => a == b
  | .num a, .num b => a == b
  | .str a, .str b => a == b
  | .bool a, .num b => (if a then (1 : Int) else 0) == b
  | .num a, .bool b => a == (if b then (1 : Int) else 0)
  | _, _ => false

/-! ## VM identity model (`models.py`)

`VMIdentifier.__eq__`/`__hash__` compare only `(proxmox_node, vmid)`; name
and tags are observational.  The raw attribute map (`vm.config`) is carried
separately by the operations that use it (`VmConfigMap` below). -/

structure VMIdentifier where
  proxmox_node : String
  vmid : Nat
  name : Option String := none
  tags : List String := []
deriving DecidableEq, Repr

/-- Python `==` on `VMIdentifier`: identity is the `(proxmox_node, vmid)`
pair only (`models.py` lines 22-28). -/
def vmIdBeq (a b : VMIdentifier) : Bool :=
  a.proxmox_node == b.proxmox_node && a.vmid == b.vmid

/-- `list(set(xs))` on `VMIdentifier`s: deduplication by Python equality,
i.e. by `(proxmox_node, vmid)`.  Python's set iteration order is
unspecified; first-occurrence order is taken here, and every consumer sorts
afterwards. -/
def dedupVms (xs : List VMIdentifier) : List VMIdentifier :=
  xs.foldl (fun acc x => if acc.any (vmIdBeq x) then acc else acc ++ [x]) []

/-! ## Python string and sort-key ordering

Python compares strings lexicographically by Unicode code point, and tuples
lexicographically componentwise; `list.sort(key=...)` is a stable sort
driven by `<` on the keys.  `pyStrLt` is that string order, written as a
structurally recursive Boolean so the kernel can evaluate it. -/

/-- Python `str.lower()` (written over the character list so the kernel
can evaluate it). -/
def pyLower (s : String) : String :=
  String.mk (s.data.map Char.toLower)

/-- Python `str.upper()`. -/
def pyUpper (s : String) : String :=
  String.mk (s.data.map Char.toUpper)

/-- Helper for `pySplit`: split off the chunk accumulated in `cur` at each
separator. -/
def pySplitAux (sep : Char) : List Char → List Char → List String
  | [], cur => [String.mk cur.reverse]
  | c :: cs, cur =>
    if c == sep then String.mk cur.reverse :: pySplitAux sep cs []
    else pySplitAux sep cs (c :: cur)

/-- Python `s.split(sep)` for a one-character separator (the source only
splits on `";"`), keeping empty chunks as Python does. -/
def pySplit (s : String) (sep : Char) : List String :=
  pySplitAux sep s.data []

/-- Python `str.strip()`: drop leading and trailing whitespace. -/
def pyStrip (s : String) : String :=
  String.mk (((s.data.dropWhile Char.isWhitespace).reverse.dropWhile Char.isWhitespace).reverse)

/-- Lexicographic code-point order on character lists (Python `str.__lt__`
on the underlying character sequences). -/
def pyCharsLt : List Char → List Char → Bool
  | _, [] => false
  | [], _ :: _ => true
  | a :: as, b :: bs => if a < b then true else if b < a then false else pyCharsLt as bs

/-- Python `<` on strings. -/
def pyStrLt (a b : String) : Bool :=
  pyCharsLt a.data b.data

/-- The sort key `lambda vm: (vm.proxmox_node, vm.vmid)` used by
`_populate_node_lists` and `configure_vms`. -/
def sortKey (vm : VMIdentifier) : String × Nat :=
  (vm.proxmox_node, vm.vmid)

/-- Python `<` on `(str, int)` sort keys (tuple lexicographic order). -/
def keyLt (a b : String × Nat) : Bool :=
  pyStrLt a.1 b.1 || (a.1 == b.1 && decide (a.2 < b.2))

/-- The weak order driving Python's stable sort: `a` may precede `b`
exactly when `b`'s key is not strictly below `a`'s. -/
def vmLe (a b : VMIdentifier) : Prop :=
  keyLt (sortKey b) (sortKey a) = false

instance : DecidableRel vmLe := fun a b => by
  unfold vmLe; infer_instance

/-- Strict key order on VMs, used to state uniqueness of the sorted order
when the `(proxmox_node, vmid)` pairs are distinct. -/
def vmLt (a b : VMIdentifier) : Prop :=
  keyLt (sortKey a) (sortKey b) = true

/-- Python's stable `list.sort(key=lambda vm: (vm.proxmox_node, vm.vmid))`,
modelled as an insertion sort (any two stable sorts under the same total
preorder agree). -/
def pySortVms (l : List VMIdentifier) : List VMIdentifier :=
  List.insertionSort vmLe l

/-! ## Configuration constants (`config.py`) -/

def SERVER_TAG : String := "k3s-server"
def AGENT_TAG : String := "k3s-agent"
def STORAGE_TAG : String := "k3s-storage"

/-! ## Proxmox API layer (`proxmox_api.py`)

A VM's raw attribute map is modelled by the keys the core reads or writes:
`name`, `tags`, `ipconfig<K3S_NODE_IPCONFIG_INDEX>`, `nameserver`,
`searchdomain`, `sshkeys`.  A `none` field is an absent key. -/

structure VmConfigMap where
  name : Option String := none
  tags : Option String := none
  ipconfig : Option String := none
  nameserver : Option String := none
  searchdomain : Option String := none
  sshkeys : Option String := none
deriving DecidableEq, Repr

/-- Errors a `control_vm` call can surface to its caller. -/
inductive CtrlErr where
  | valueError : CtrlErr
  | proxmoxError : CtrlErr
deriving DecidableEq, Repr

/-- The remote side of one VM's power endpoint: the result of a
`status.<action>.post()` round trip (task id, or a `ResourceException`
which `control_vm` converts to `ProxmoxError`). -/
structure RemoteVm where
  post : String → Except Unit String

/-- `control_vm` validates the action name (`proxmox_api.py` lines
254-256). -/
def valid_actions : List String := ["start", "stop", "shutdown", "reboot"]

/-- `control_vm(node, vmid, action)` (`proxmox_api.py` lines 246-280):
rejects an action outside `valid_actions` with a `ValueError` before any
API call; maps `stop` to the Proxmox-level `shutdown`; then posts the
action.  The second component records the remote power actions actually
posted (empty when validation fails). -/
def control_vm (r : RemoteVm) (action : String) : Except CtrlErr String × List String :=
  if valid_actions.contains action then
    let pve_api_action := if action == "stop" then "shutdown" else action
    match r.post pve_api_action with
    | .ok task_id => (.ok task_id, [pve_api_action])
    | .error _ => (.error .proxmoxError, [pve_api_action])
  else
    (.error .valueError, [])

/-- The effect of a successful `set_vm_network_config` write on a VM's
attribute map (`proxmox_api.py` lines 283-333): `ipconfig<idx>` is always
set; `nameserver`, `searchdomain` and `sshkeys` only when the
corresponding value is truthy (the SSH key is stored URL-encoded; encoding
is stdlib behaviour and the value is never read back by the core). -/
def applyNetworkWrite (ipconfig_value nameserver_value searchdomain_value : String)
    (ssh_key : Option String) (cfg : VmConfigMap) : VmConfigMap :=
  { cfg with
    ipconfig := some ipconfig_value
    nameserver := if nameserver_value != "" then some nameserver_value else cfg.nameserver
    searchdomain := if searchdomain_value != "" then some searchdomain_value else cfg.searchdomain
    sshkeys := match ssh_key with
      | some k => if k != "" then some k else cfg.sshkeys
      | none => cfg.sshkeys }

/-! ## Node classifier and discovery engine
(`K3sDeploymentManager.discover_nodes_by_tags`, `k3s_manager.py` lines
159-259) -/

/-- The inventory the discovery walk observes: the host-list call (which
can raise `ProxmoxError`), the per-host VM id lists (`get_vms_on_node`
returns `[]` on a per-host failure), and the per-VM config fetches (which
can raise `ProxmoxError`). -/
structure DiscoveryWorld where
  cluster_nodes : Except Unit (List String)
  vms_on_node : String → List Nat
  vm_config : String → Nat → Except Unit VmConfigMap

/-- Tag parsing (`k3s_manager.py` lines 194-199): semicolon-separated,
each tag stripped of surrounding whitespace, empties dropped. -/
def splitTags (tags_str : String) : List String :=
  ((pySplit tags_str ';').map pyStrip).filter (fun t => t != "")

/-- Role-classify one VM during discovery (`k3s_manager.py` lines 187-243):
skip on config-fetch failure, skip when the tag list is empty or carries no
recognized role tag; otherwise return the `VMIdentifier` and its role
memberships `(is_server, is_agent, is_storage)`. -/
def discoverVmEntry (w : DiscoveryWorld) (p_node_name : String) (vmid : Nat) :
    Option (VMIdentifier × Bool × Bool × Bool) :=
  match w.vm_config p_node_name vmid with
  | .error _ => none
  | .ok vm_config =>
    let vm_tags := splitTags (vm_config.tags.getD "")
    if vm_tags.isEmpty then none
    else
      let is_server := vm_tags.contains SERVER_TAG
      let is_agent := vm_tags.contains AGENT_TAG
      let is_storage := vm_tags.contains STORAGE_TAG
      if !(is_server || is_agent || is_storage) then none
      else some ({ proxmox_node := p_node_name, vmid := vmid,
                   name := vm_config.name, tags := vm_tags }, is_server, is_agent, is_storage)

/-- The four node lists the manager populates. -/
structure NodeLists where
  servers : List VMIdentifier := []
  agents : List VMIdentifier := []
  storage : List VMIdentifier := []
  all_nodes : List VMIdentifier := []
deriving DecidableEq, Repr

/-- Append one discovered VM to the role lists it belongs to. -/
def appendDiscovered (acc : NodeLists) (e : VMIdentifier × Bool × Bool × Bool) : NodeLists :=
  { servers := acc.servers ++ (if e.2.1 then [e.1] else [])
    agents := acc.agents ++ (if e.2.2.1 then [e.1] else [])
    storage := acc.storage ++ (if e.2.2.2 then [e.1] else [])
    all_nodes := acc.all_nodes ++ [e.1] }

/-- The discovery walk over all hosts and VMs, accumulating role lists in
host order then VM id order. -/
def discoverWalk (w : DiscoveryWorld) (hosts : List String) : NodeLists :=
  hosts.foldl
    (fun acc p_node_name =>
      (w.vms_on_node p_node_name).foldl
        (fun acc vmid =>
          match discoverVmEntry w p_node_name vmid with
          | none => acc
          | some e => appendDiscovered acc e)
        acc)
    {}

/-! ## `_populate_node_lists` (`k3s_manager.py` lines 52-94) -/

/-- The lists plus the values `_populate_node_lists` derives. -/
structure PopulatedLists where
  servers : List VMIdentifier
  agents : List VMIdentifier
  storage : List VMIdentifier
  all_nodes : List VMIdentifier
  server_master : Option VMIdentifier
  servers_no_first : List VMIdentifier
deriving DecidableEq, Repr

/-- `_populate_node_lists`: sort every list by `(proxmox_node, vmid)`,
then derive `server_master` (first sorted server, or `None`) and
`servers_no_first` (the rest). -/
def populate_node_lists (nl : NodeLists) : PopulatedLists :=
  let all_nodes := pySortVms nl.all_nodes
  let servers := pySortVms nl.servers
  let agents := pySortVms nl.agents
  let storage := pySortVms nl.storage
  match servers with
  | [] =>
    { servers := [], agents, storage, all_nodes,
      server_master := none, servers_no_first := [] }
  | m :: rest =>
    { servers := m :: rest, agents, storage, all_nodes,
      server_master := some m, servers_no_first := rest }

/-- `discover_nodes_by_tags`: raises `NodeDiscoveryError` when the host
enumeration fails or returns no hosts; otherwise walks every host and VM,
deduplicates each list by VM identity, warns (without raising) when no
node carried a role tag, and populates the derived lists. -/
def discover_nodes_by_tags (w : DiscoveryWorld) : Except Unit PopulatedLists :=
  match w.cluster_nodes with
  | .error _ => .error ()
  | .ok proxmox_host_nodes =>
    if proxmox_host_nodes.isEmpty then .error ()
    else
      let nl := discoverWalk w proxmox_host_nodes
      .ok (populate_node_lists
        { servers := dedupVms nl.servers
          agents := dedupVms nl.agents
          storage := dedupVms nl.storage
          all_nodes := dedupVms nl.all_nodes })

/-! ## Config-file loader
(`K3sDeploymentManager.load_nodes_from_config_file`, `k3s_manager.py`
lines 96-157) -/

/-- How a loader invocation can terminate abnormally:
`configurationError` models the `ConfigurationError` raised for
`json.JSONDecodeError`/`IOError`; `attributeError` and `typeError` model
the corresponding unhandled Python exceptions escaping the parse of a
decoded value of unexpected shape. -/
inductive LoadExc where
  | configurationError : LoadExc
  | attributeError : LoadExc
  | typeError : LoadExc
deriving DecidableEq, Repr

/-- A `VMIdentifier` as the loader constructs it: the raw `id` and `vmid`
values straight from the decoded JSON (the dataclass performs no type
checking). -/
structure CfgVM where
  proxmox_node : Json
  vmid : Json

/-- Python `==` on loader-built `VMIdentifier`s (identity pair equality on
the raw values). -/
def cfgVmBeq (a b : CfgVM) : Bool :=
  pyScalarEq a.proxmox_node b.proxmox_node && pyScalarEq a.vmid b.vmid

/-- `list(set(xs))` on loader-built VMs (first-occurrence order; Python's
set order is unspecified and all consumers sort afterwards). -/
def dedupCfgVms (xs : List CfgVM) : List CfgVM :=
  xs.foldl (fun acc x => if acc.any (cfgVmBeq x) then acc else acc ++ [x]) []

inductive Role where
  | server : Role
  | agent : Role
  | storage : Role
deriving DecidableEq, Repr

/-- Role classification of one config-file VM entry (`k3s_manager.py`
lines 135-142): the upper-cased `role` string against the upper-cased tag
or the short form, tested in server/agent/storage order. -/
def classifyRole (role : String) : Option Role :=
  if role == pyUpper SERVER_TAG || role == "SERVER" then some .server
  else if role == pyUpper AGENT_TAG || role == "AGENT" then some .agent
  else if role == pyUpper STORAGE_TAG || role == "STORAGE" then some .storage
  else none

/-- Parse the VM entries of one host entry (`k3s_manager.py` lines
125-142): read `vmid` and `role` (an `AttributeError` on a non-dict entry
propagates), skip entries with a falsy `vmid`, then classify; entries with
an unrecognized role are dropped. -/
def loadVmEntries (proxmox_node_id : Json) : List Json → Except LoadExc (List (Role × CfgVM))
  | [] => .ok []
  | vm_info :: rest =>
    match pyGetD vm_info "vmid" .null, pyGetD vm_info "role" (.str "") with
    | .ok vmid, .ok roleVal =>
      let role := pyUpper (pyStr roleVal)
      if !(pyTruthy vmid) then loadVmEntries proxmox_node_id rest
      else
        match classifyRole role with
        | some r =>
          (loadVmEntries proxmox_node_id rest).map
            (fun tail => (r, { proxmox_node := proxmox_node_id, vmid }) :: tail)
        | none => loadVmEntries proxmox_node_id rest
    | _, _ => .error .attributeError

/-- Parse one host entry and its VM list (`k3s_manager.py` lines
121-142): a falsy `id` skips the host entry; `vms` defaults to `[]` and a
non-iterable `vms` value is a `TypeError`. -/
def loadHostEntry (p_node_info : Json) : Except LoadExc (List (Role × CfgVM)) :=
  match pyGetD p_node_info "id" .null with
  | .error _ => .error .attributeError
  | .ok proxmox_node_id =>
    if !(pyTruthy proxmox_node_id) then .ok []
    else
      match pyGetD p_node_info "vms" (.arr []) with
      | .error _ => .error .attributeError
      | .ok vmsVal =>
        match pyIter vmsVal with
        | .error _ => .error .typeError
        | .ok vm_infos => loadVmEntries proxmox_node_id vm_infos

/-- Walk the host entries, concatenating their VM entries in order. -/
def loadHostEntries : List Json → Except LoadExc (List (Role × CfgVM))
  | [] => .ok []
  | p_node_info :: rest =>
    match loadHostEntry p_node_info with
    | .error exc => .error exc
    | .ok entries => (loadHostEntries rest).map (fun tail => entries ++ tail)

/-- Parse the decoded config JSON into role-tagged VM entries
(`k3s_manager.py` lines 121-142): walk `data.get("nodes", [])`.  The
errors are the unhandled Python exceptions a wrongly-shaped value causes
(`AttributeError` from `.get` on a non-dict, `TypeError` from iterating a
non-iterable). -/
def loadNodesParse (data : Json) : Except LoadExc (List (Role × CfgVM)) :=
  match pyGetD data "nodes" (.arr []) with
  | .error _ => .error .attributeError
  | .ok nodesVal =>
    match pyIter nodesVal with
    | .error _ => .error .typeError
    | .ok p_node_infos => loadHostEntries p_node_infos

/-- The role lists as the loader leaves them on the manager. -/
structure CfgLists where
  servers : List CfgVM := []
  agents : List CfgVM := []
  storage : List CfgVM := []
  all_nodes : List CfgVM := []

/-- `load_nodes_from_config_file` (`k3s_manager.py` lines 96-157).  The
backing file is an oracle: `none` when `config.json` does not exist,
`some (.error ())` when it exists but reading or JSON-decoding fails
(`ConfigurationError`), `some (.ok data)` when it decodes to `data`.
Returns `False` (file absent, state untouched) or `True` with the loaded
lists; the trailing `_populate_node_lists` call only sorts the lists and
derives master values and is modelled by `populate_node_lists`. -/
def load_nodes_from_config_file (file : Option (Except Unit Json)) (st : CfgLists) :
    Except LoadExc (Bool × CfgLists) :=
  match file with
  | none => .ok (false, st)
  | some (.error _) => .error .configurationError
  | some (.ok data) =>
    match loadNodesParse data with
    | .error exc => .error exc
    | .ok entries =>
      let loaded_servers := entries.filterMap (fun rc => if rc.1 = .server then some rc.2 else none)
      let loaded_agents := entries.filterMap (fun rc => if rc.1 = .agent then some rc.2 else none)
      let loaded_storage := entries.filterMap (fun rc => if rc.1 = .storage then some rc.2 else none)
      .ok (true,
        { servers := loaded_servers
          agents := loaded_agents
          storage := loaded_storage
          all_nodes := dedupCfgVms (loaded_servers ++ loaded_agents ++ loaded_storage) })

/-! ## SSH key resolution (`K3sDeploymentManager._get_ssh_public_key`,
`k3s_manager.py` lines 419-478) -/

/-- The three key sources: the `K3S_SSH_PUBLIC_KEY` environment variable,
the `config.json` file (absent / unreadable-or-undecodable / decoded), and
the key file at `SSH_PUBLIC_KEY_PATH` (absent / unreadable / contents). -/
structure SshKeyEnv where
  SSH_PUBLIC_KEY : Option String
  node_config_file : Option (Except Unit Json)
  ssh_key_file : Option (Except Unit String)

/-- Step (c) of `_get_ssh_public_key` (`k3s_manager.py` lines 453-478):
the key file's stripped contents when the file exists, reads, and strips
to something non-empty; otherwise no key. -/
def getSshKeyFromFile (e : SshKeyEnv) : Option Json :=
  match e.ssh_key_file with
  | some (.ok contents) =>
    let key_content := pyStrip contents
    if key_content != "" then some (.str key_content) else none
  | some (.error _) => none
  | none => none

/-- Steps (b) and (c) of `_get_ssh_public_key` (lines 437-478): when
`config.json` exists, reads and decodes, and contains an `ssh_key` field,
that field's raw value is returned — whatever it is; any other situation
(file absent, unreadable, undecodable, or without the field) falls
through to the key file. -/
def getSshKeyFromConfigOrFile (e : SshKeyEnv) : Option Json :=
  match e.node_config_file with
  | some (.ok data) =>
    if pyHasKey data "ssh_key" then some (pySubscript data "ssh_key")
    else getSshKeyFromFile e
  | some (.error _) => getSshKeyFromFile e
  | none => getSshKeyFromFile e

/-- `_get_ssh_public_key` (lines 419-478): (a) a truthy environment key
wins; else steps (b) and (c). -/
def get_ssh_public_key (e : SshKeyEnv) : Option Json :=
  match e.SSH_PUBLIC_KEY with
  | some k =>
    if k != "" then some (.str k)
    else getSshKeyFromConfigOrFile e
  | none => getSshKeyFromConfigOrFile e

/-- The environment variable source yields nothing (unset or empty). -/
def envKeyFalsy (e : SshKeyEnv) : Prop :=
  match e.SSH_PUBLIC_KEY with
  | some k => k = ""
  | none => True

/-- The config-file source yields nothing: the file is absent, does not
read or decode, or decodes without an `ssh_key` field. -/
def cfgFileHasNoSshKey (e : SshKeyEnv) : Prop :=
  match e.node_config_file with
  | some (.ok data) => pyHasKey data "ssh_key" = false
  | _ => True

/-- The key-file source yields nothing: absent, unreadable, or stripping
to the empty string. -/
def keyFileYieldsNothing (e : SshKeyEnv) : Prop :=
  match e.ssh_key_file with
  | some (.ok contents) => pyStrip contents = ""
  | _ => True

/-- Python truthiness of the resolved key (`if not ssh_key:` /
`if ssh_key:`). -/
def sshKeyTruthy : Option Json → Bool
  | none => false
  | some v => pyTruthy v

/-! ## Lifecycle controller (`K3sDeploymentManager.perform_vm_action`,
`k3s_manager.py` lines 352-417) -/

/-- What processing one node of a lifecycle action does: skip it because
the status fetch failed, do nothing (already in the desired state), issue
a `control_vm` action, or log an internal error for an unknown action
name. -/
inductive VmActionStep where
  | skippedStatusError : VmActionStep
  | noop : VmActionStep
  | issue (action : String) : VmActionStep
  | unknownAction : VmActionStep
deriving DecidableEq, Repr

/-- One node of `perform_vm_action`: fetch the status (failure → skip the
node), lower-case the status string (missing field → `"unknown"`), then
the transition table: `start` is a no-op on a running VM; `stop` is a
no-op on a stopped VM and a graceful `stop` (transport `shutdown`)
otherwise; `restart` issues `start` on a non-running VM and `reboot` on a
running one. -/
def perform_vm_action_step (action : String)
    (status_fetch : Except Unit (Option String)) : VmActionStep :=
  match status_fetch with
  | .error _ => .skippedStatusError
  | .ok status_field =>
    let current_status := pyLower (status_field.getD "unknown")
    if action == "start" then
      if current_status == "running" then .noop else .issue "start"
    else if action == "stop" then
      if current_status == "stopped" then .noop else .issue "stop"
    else if action == "restart" then
      if current_status != "running" then .issue "start" else .issue "reboot"
    else .unknownAction

/-! ## IP convergence engine (`K3sDeploymentManager.configure_vms`,
`k3s_manager.py` lines 480-674) -/

/-- The target network configuration (`config.py` network constants).
`search_domain` is the raw configured string, `""` for an absent one
(Python falsy). -/
structure ConvTargets where
  cidr : String
  gateway : String
  dns_servers : List String
  search_domain : String
deriving Repr

/-- `str(ipaddress.IPv4Address(n))`: the dotted-quad rendering of an
IPv4 address held as an integer. -/
def ipv4ToString (n : Nat) : String :=
  toString (n / 16777216 % 256) ++ "." ++ toString (n / 65536 % 256) ++ "." ++
    toString (n / 256 % 256) ++ "." ++ toString (n % 256)

/-- The target `ipconfig<idx>` string for the cursor address
(`k3s_manager.py` lines 566-570). -/
def targetIpconfigValue (t : ConvTargets) (next_ip_to_assign_int : Nat) : String :=
  "ip=" ++ ipv4ToString next_ip_to_assign_int ++ "/" ++ t.cidr ++ ",gw=" ++ t.gateway

/-- The target nameserver string: space-joined DNS list (line 571). -/
def targetNameserverValue (t : ConvTargets) : String :=
  " ".intercalate t.dns_servers

/-- The idempotency check (`k3s_manager.py` lines 582-597): update is
needed when forcing, when the stored `ipconfig` string differs from the
target, or when a truthy target nameserver or search domain differs from
the stored one. -/
def needs_update (force : Bool) (cfg : VmConfigMap)
    (target_ipconfig_value target_nameserver_value target_searchdomain_value : String) : Bool :=
  force
    || cfg.ipconfig.getD "" != target_ipconfig_value
    || (target_nameserver_value != "" && cfg.nameserver.getD "" != target_nameserver_value)
    || (target_searchdomain_value != "" && cfg.searchdomain.getD "" != target_searchdomain_value)

/-- One node's inputs to a convergence pass: the VM, its in-memory
attribute map at loop entry (`vm.config`, empty when the node came from
the config file), and the oracle results of this node's remote calls:
the status fetch, the config fetch (used only when the in-memory map
lacks the `ipconfig<idx>` key) and whether the configuration write
succeeds if attempted. -/
structure NodeCtx where
  vm : VMIdentifier
  cfg0 : VmConfigMap := {}
  status_fetch : Except Unit String := .error ()
  cfg_fetch : Except Unit VmConfigMap := .error ()
  write_ok : Bool := true

/-- The stored status after the best-effort status fetch (lines 533-540):
lower-cased on success, `"unknown"` on failure. -/
def nodeStatus (nc : NodeCtx) : String :=
  match nc.status_fetch with
  | .ok s => pyLower s
  | .error _ => "unknown"

/-- The attribute map the idempotency check runs against (lines 542-554):
the in-memory map when it already has the `ipconfig<idx>` key, else the
result of a fresh `get_vm_config` fetch, whose failure skips the node. -/
def effectiveConfig (nc : NodeCtx) : Except Unit VmConfigMap :=
  if nc.cfg0.ipconfig.isNone then nc.cfg_fetch else .ok nc.cfg0

/-- Which branch of the per-node body a node took. -/
inductive NodeOutcome where
  | fetchFailed : NodeOutcome
  | exhausted : NodeOutcome
  | skipped : NodeOutcome
  | written : NodeOutcome
  | writeFailed : NodeOutcome
deriving DecidableEq, Repr

/-- The loop state of a convergence pass: the IP cursor and the
modification ledger (`modified_vms`, plus the `running_modified_vms`
subset). -/
structure ConvState where
  next_ip_to_assign_int : Nat
  modified_vms : List VMIdentifier := []
  running_modified_vms : List VMIdentifier := []
deriving DecidableEq, Repr

/-- One iteration of the `configure_vms` loop (`k3s_manager.py` lines
530-650): status fetch (best effort), config fetch when needed (failure →
`continue` without advancing the cursor), range-exhaustion check (skip
without advancing the cursor), idempotency check (skip, cursor advances),
then the configuration write (ledger entry on success, running subset
when the stored status is `running`; cursor advances whether or not the
write succeeded).  Also returns the node's attribute map as it is on the
remote side after the iteration. -/
def processNode (t : ConvTargets) (ssh_key : Option String) (force : Bool)
    (ip_range_end_int : Nat) (st : ConvState) (nc : NodeCtx) :
    ConvState × NodeOutcome × VmConfigMap :=
  match effectiveConfig nc with
  | .error _ => (st, .fetchFailed, nc.cfg0)
  | .ok cfg =>
    if st.next_ip_to_assign_int > ip_range_end_int then
      (st, .exhausted, cfg)
    else
      let target_ipconfig_value := targetIpconfigValue t st.next_ip_to_assign_int
      let target_nameserver_value := targetNameserverValue t
      let target_searchdomain_value := t.search_domain
      if !(needs_update force cfg target_ipconfig_value target_nameserver_value
            target_searchdomain_value) then
        ({ st with next_ip_to_assign_int := st.next_ip_to_assign_int + 1 }, .skipped, cfg)
      else if nc.write_ok then
        ({ next_ip_to_assign_int := st.next_ip_to_assign_int + 1
           modified_vms := st.modified_vms ++ [nc.vm]
           running_modified_vms := st.running_modified_vms ++
             (if nodeStatus nc == "running" then [nc.vm] else []) },
         .written,
         applyNetworkWrite target_ipconfig_value target_nameserver_value
           target_searchdomain_value ssh_key cfg)
      else
        ({ st with next_ip_to_assign_int := st.next_ip_to_assign_int + 1 }, .writeFailed, cfg)

/-- The whole per-node loop of `configure_vms` over the sorted node
sequence, returning the final state and, per node, the branch taken and
the node's post-pass attribute map. -/
def configureVmsLoop (t : ConvTargets) (ssh_key : Option String) (force : Bool)
    (ip_range_end_int : Nat) :
    ConvState → List NodeCtx → ConvState × List (NodeOutcome × VmConfigMap)
  | st, [] => (st, [])
  | st, nc :: rest =>
    let r := processNode t ssh_key force ip_range_end_int st nc
    let rr := configureVmsLoop t ssh_key force ip_range_end_int r.1 rest
    (rr.1, r.2 :: rr.2)

/-- The restart phase of `configure_vms` (`k3s_manager.py` lines 663-672):
for each ledger VM, call `control_vm(node, vmid, "restart")`; only
`ProxmoxError` is caught (logged, loop continues), so a `ValueError`
escaping `control_vm` aborts the loop.  The second component records the
remote power actions actually posted. -/
def restartModifiedVms (remote : VMIdentifier → RemoteVm) :
    List VMIdentifier → Except CtrlErr Unit × List String
  | [] => (.ok (), [])
  | vm :: rest =>
    let r := control_vm (remote vm) "restart"
    match r.1 with
    | .error .valueError => (.error .valueError, r.2)
    | .error .proxmoxError =>
      let rr := restartModifiedVms remote rest
      (rr.1, r.2 ++ rr.2)
    | .ok _ =>
      let rr := restartModifiedVms remote rest
      (rr.1, r.2 ++ rr.2)

/-- The outcome of a whole `configure_vms` invocation: final loop state,
per-node outcomes, and the restart phase's result (`none` when no restart
was attempted). -/
structure ConfigureResult where
  state : ConvState
  outcomes : List (NodeOutcome × VmConfigMap)
  restart_result : Option (Except CtrlErr Unit × List String)
deriving Repr

/-- `configure_vms` (`k3s_manager.py` lines 480-674): early return when no
nodes are loaded; resolve the SSH key (its absence only reduces the write
payload); sort the nodes by `(proxmox_node, vmid)`; run the per-node loop
from the configured range start; then, when `restart_after` is set and the
ledger is non-empty, run the restart phase.  The resolved key is passed to
the write as its string content (a non-string `ssh_key` config value is
truthy JSON rendered by the transport; its exact bytes are never read
back). -/
def configure_vms (t : ConvTargets) (e : SshKeyEnv)
    (remote : VMIdentifier → RemoteVm) (restart_after force : Bool)
    (ip_range_start_int ip_range_end_int : Nat) (all_nodes : List NodeCtx) :
    ConfigureResult :=
  if all_nodes.isEmpty then
    { state := { next_ip_to_assign_int := ip_range_start_int }, outcomes := [],
      restart_result := none }
  else
    let ssh_key := get_ssh_public_key e
    let ssh_str := if sshKeyTruthy ssh_key then some (pyStr ((ssh_key).getD .null)) else none
    let sorted_nodes := List.insertionSort (fun a b => vmLe a.vm b.vm) all_nodes
    let r := configureVmsLoop t ssh_str force ip_range_end_int
      { next_ip_to_assign_int := ip_range_start_int } sorted_nodes
    { state := r.1, outcomes := r.2,
      restart_result :=
        if !r.1.modified_vms.isEmpty && restart_after then
          some (restartModifiedVms remote r.1.modified_vms)
        else none }

/-- Abbreviation: the state with only the cursor advanced. -/
def bumpCursor (st : ConvState) : ConvState :=
  { st with next_ip_to_assign_int := st.next_ip_to_assign_int + 1 }

/-- The state after a successful write is recorded (ledger entry, plus the
running subset when the stored status is `running`). -/
def recordWrite (st : ConvState) (nc : NodeCtx) : ConvState :=
  { next_ip_to_assign_int := st.next_ip_to_assign_int + 1
    modified_vms := st.modified_vms ++ [nc.vm]
    running_modified_vms := st.running_modified_vms ++
      (if nodeStatus nc == "running" then [nc.vm] else []) }

/-- The second convergence run observes exactly what the first run left
behind: the node's in-memory map is fresh (no `ipconfig` key, as for
config-file-loaded nodes) and its config fetch returns the first run's
post-pass attribute map for that node. -/
def observesPostState (oc : NodeOutcome × VmConfigMap) (nc₂ : NodeCtx) : Prop :=
  nc₂.cfg0.ipconfig = none ∧ nc₂.cfg_fetch = .ok oc.2

/-! ## Concrete fixtures used by witnesses and counterexamples -/

def demoTargets : ConvTargets :=
  { cidr := "24"
    gateway := "10.10.0.1"
    dns_servers := ["10.10.0.1"]
    search_domain := "lan.home.vwn.io" }

def demoVm100 : VMIdentifier := { proxmox_node := "pve1", vmid := 100 }
def demoVm101 : VMIdentifier := { proxmox_node := "pve1", vmid := 101 }
def demoVm200 : VMIdentifier := { proxmox_node := "pve2", vmid := 200 }

/-- A remote endpoint whose posts always succeed (task id echoes the
action). -/
def demoRemote : RemoteVm := { post := fun action => .ok action }

/-- `int(IPv4Address("10.10.0.201"))`, the configured range start. -/
def demoRangeStart : Nat := 168427721

/-- `int(IPv4Address("10.10.0.229"))`, the configured range end. -/
def demoRangeEnd : Nat := 168427749

/-- A node whose attribute map is unpopulated and whose `get_vm_config`
fetch fails. -/
def demoFetchFailNode : NodeCtx :=
  { vm := demoVm100
    status_fetch := .ok "running"
    cfg_fetch := .error ()
    write_ok := true }

/-- A fresh, unconfigured node: empty in-memory map, running, fetch
returns an empty attribute map, writes succeed. -/
def demoFreshNode (vm : VMIdentifier) : NodeCtx :=
  { vm := vm
    status_fetch := .ok "running"
    cfg_fetch := .ok {}
    write_ok := true }

/-- The attribute map of a node already configured exactly at the target
for address `n`. -/
def demoConfiguredMap (n : Nat) : VmConfigMap :=
  { ipconfig := some (targetIpconfigValue demoTargets n)
    nameserver := some (targetNameserverValue demoTargets)
    searchdomain := some demoTargets.search_domain }

/-- A discovery world with one host whose single VM carries no tags. -/
def demoNoTagWorld : DiscoveryWorld :=
  { cluster_nodes := .ok ["pve1"]
    vms_on_node := fun _ => [100]
    vm_config := fun _ _ => .ok { tags := some "" } }

/-- Decoded `config.json` contents with one host entry whose VM list has
a `vmid 0` server entry (well-formed but falsy id) and a `vmid 100`
server entry. -/
def demoCfgData : Json :=
  .obj [("nodes", .arr [ .obj [("id", .str "pve1"), ("vms", .arr [
    .obj [("vmid", .num 0), ("role", .str "SERVER")],
    .obj [("vmid", .num 100), ("role", .str "SERVER")] ])] ])]

/-- The lists the loader produces from `demoCfgData`: the `vmid 0` server
entry is gone, only `(pve1, 100)` remains. -/
def demoLoadedLists : CfgLists :=
  { servers := [{ proxmox_node := .str "pve1", vmid := .num 100 }]
    agents := []
    storage := []
    all_nodes := [{ proxmox_node := .str "pve1", vmid := .num 100 }] }

/-- A node whose attribute map already matches the target for the range
start exactly. -/
def demoMatchedNode : NodeCtx :=
  { vm := demoVm100
    status_fetch := .ok "running"
    cfg_fetch := .ok (demoConfiguredMap demoRangeStart)
    write_ok := true }

/-- An SSH-key environment where the env var is unset, `config.json` has
an `ssh_key` field holding the empty string, and the key file holds a
non-empty key. -/
def demoSshEnv : SshKeyEnv :=
  { SSH_PUBLIC_KEY := none
    node_config_file := some (.ok (.obj [("ssh_key", .str "")]))
    ssh_key_file := some (.ok "ssh-rsa AAA") }

/-- The attribute map a fresh node carries after the first run wrote the
target configuration for address `n` to it. -/
def demoWrittenMap (n : Nat) : VmConfigMap :=
  applyNetworkWrite (targetIpconfigValue demoTargets n) (targetNameserverValue demoTargets)
    demoTargets.search_domain none {}

/-- A second-run node context observing the first run's written map for
address `n`. -/
def demoSecondRunNode (vm : VMIdentifier) (n : Nat) : NodeCtx :=
  { vm := vm
    status_fetch := .ok "running"
    cfg_fetch := .ok (demoWrittenMap n)
    write_ok := true }

/-- An unsorted node-list collection over three distinct VMs. -/
def demoNodeListsA : NodeLists :=
  { servers := [demoVm200, demoVm100, demoVm101]
    agents := [demoVm101]
    storage := [demoVm200]
    all_nodes := [demoVm200, demoVm100, demoVm101] }

/-- The same collection with the server list permuted differently. -/
def demoNodeListsB : NodeLists :=
  { servers := [demoVm101, demoVm200, demoVm100]
    agents := [demoVm101]
    storage := [demoVm200]
    all_nodes := [demoVm200, demoVm100, demoVm101] }

/-- A discovery world whose host enumeration returns no hosts. -/
def demoEmptyHostsWorld : DiscoveryWorld :=
  { cluster_nodes := .ok []
    vms_on_node := fun _ => []
    vm_config := fun _ _ => .error () }

/-- An SSH-key environment with no key anywhere: env unset, no config
file, no key file. -/
def demoNoKeyEnv : SshKeyEnv :=
  { SSH_PUBLIC_KEY := none
    node_config_file := none
    ssh_key_file := none }

/-! ## Properties of the sort-key order -/

theorem pyCharsLt_asymm : ∀ {x y : List Char}, pyCharsLt x y = true → pyCharsLt y x = false
  | _, [], h => by simp [pyCharsLt] at h
  | [], _ :: _, _ => by simp [pyCharsLt]
  | a :: as, b :: bs, h => by
    by_cases hab : a < b
    · have hba : ¬ b < a := lt_asymm hab
      simp [pyCharsLt, hab, hba]
    · by_cases hba : b < a
      · simp [pyCharsLt, hab, hba] at h
      · have hrec := pyCharsLt_asymm (x := as) (y := bs)
        simp [pyCharsLt, hab, hba] at h ⊢
        exact hrec h

theorem pyCharsLt_trans : ∀ {x y z : List Char},
    pyCharsLt x y = true → pyCharsLt y z = true → pyCharsLt x z = true
  | _, _, [], _, h2 => by simp [pyCharsLt] at h2
  | _, [], _ :: _, h1, _ => by simp [pyCharsLt] at h1
  | [], _ :: _, _ :: _, _, _ => by simp [pyCharsLt]
  | a :: as, b :: bs, c :: cs, h1, h2 => by
    by_cases hab : a < b
    · by_cases hbc : b < c
      · have hac : a < c := lt_trans hab hbc
        simp [pyCharsLt, hac]
      · by_cases hcb : c < b
        · simp [pyCharsLt, hbc, hcb] at h2
        · have hbc' : b = c := le_antisymm (not_lt.mp hcb) (not_lt.mp hbc)
          subst hbc'
          simp [pyCharsLt, hab]
    · by_cases hba : b < a
      · simp [pyCharsLt, hab, hba] at h1
      · have hab' : a = b := le_antisymm (not_lt.mp hba) (not_lt.mp hab)
        subst hab'
        simp [pyCharsLt] at h1 h2 ⊢
        rcases h2 with h2 | h2
        · exact Or.inl h2
        · refine Or.inr ⟨h2.1, ?_⟩
          exact pyCharsLt_trans (x := as) (y := bs) (z := cs) h1 h2.2

theorem pyCharsLt_conn : ∀ {x y : List Char},
    pyCharsLt x y = false → pyCharsLt y x = false → x = y
  | [], [], _, _ => rfl
  | _ :: _, [], _, h2 => by simp [pyCharsLt] at h2
  | [], _ :: _, h1, _ => by simp [pyCharsLt] at h1
  | a :: as, b :: bs, h1, h2 => by
    by_cases hab : a < b
    · simp [pyCharsLt, hab] at h1
    · by_cases hba : b < a
      · simp [pyCharsLt, hba] at h2
      · have hab' : a = b := le_antisymm (not_lt.mp hba) (not_lt.mp hab)
        subst hab'
        simp [pyCharsLt, hba] at h1 h2
        have : as = bs := pyCharsLt_conn (x := as) (y := bs) h1 h2
        rw [this]

theorem pyCharsLt_irrefl : ∀ x : List Char, pyCharsLt x x = false
  | [] => rfl
  | a :: as => by
    simp [pyCharsLt, lt_irrefl, pyCharsLt_irrefl as]

theorem keyLt_asymm {x y : String × Nat} (h : keyLt x y = true) : keyLt y x = false := by
  rcases x with ⟨s1, n1⟩
  rcases y with ⟨s2, n2⟩
  simp only [keyLt, pyStrLt, Bool.or_eq_true, Bool.and_eq_true, beq_iff_eq,
    decide_eq_true_iff] at h
  simp only [keyLt, pyStrLt, Bool.or_eq_false_iff, Bool.and_eq_false_iff]
  rcases h with h | ⟨hs, hn⟩
  · refine ⟨pyCharsLt_asymm h, Or.inl ?_⟩
    simp only [beq_eq_false_iff_ne, ne_eq]
    intro heq
    subst heq
    rw [pyCharsLt_irrefl] at h
    exact Bool.false_ne_true h
  · subst hs
    refine ⟨pyCharsLt_irrefl _, Or.inr ?_⟩
    simp only [decide_eq_false_iff_not, not_lt]
    omega

theorem keyLt_trans {x y z : String × Nat} (h1 : keyLt x y = true) (h2 : keyLt y z = true) :
    keyLt x z = true := by
  rcases x with ⟨s1, n1⟩
  rcases y with ⟨s2, n2⟩
  rcases z with ⟨s3, n3⟩
  simp only [keyLt, pyStrLt, Bool.or_eq_true, Bool.and_eq_true, beq_iff_eq,
    decide_eq_true_iff] at h1 h2 ⊢
  rcases h1 with h1 | ⟨hs1, hn1⟩
  · rcases h2 with h2 | ⟨hs2, hn2⟩
    · exact Or.inl (pyCharsLt_trans h1 h2)
    · subst hs2
      exact Or.inl h1
  · subst hs1
    rcases h2 with h2 | ⟨hs2, hn2⟩
    · exact Or.inl h2
    · subst hs2
      exact Or.inr ⟨rfl, lt_trans hn1 hn2⟩

theorem keyLt_conn {x y : String × Nat} (h1 : keyLt x y = false) (h2 : keyLt y x = false) :
    x = y := by
  rcases x with ⟨s1, n1⟩
  rcases y with ⟨s2, n2⟩
  simp only [keyLt, pyStrLt, Bool.or_eq_false_iff, Bool.and_eq_false_iff,
    beq_eq_false_iff_ne, ne_eq, decide_eq_false_iff_not, not_lt] at h1 h2
  have hs : s1 = s2 := String.ext (pyCharsLt_conn h1.1 h2.1)
  subst hs
  rcases h1.2 with h | h
  · exact absurd rfl h
  · rcases h2.2 with h' | h'
    · exact absurd rfl h'
    · have : n1 = n2 := le_antisymm h' h
      rw [this]

theorem vmLe_total : ∀ a b : VMIdentifier, vmLe a b ∨ vmLe b a := by
  intro a b
  unfold vmLe
  by_cases h : keyLt (sortKey b) (sortKey a) = true
  · exact Or.inr (keyLt_asymm h)
  · exact Or.inl (Bool.not_eq_true _ ▸ (by simpa using h))

theorem vmLe_trans' : ∀ {a b c : VMIdentifier}, vmLe a b → vmLe b c → vmLe a c := by
  intro a b c h1 h2
  unfold vmLe at h1 h2 ⊢
  by_contra hcon
  have hca : keyLt (sortKey c) (sortKey a) = true := by
    simpa using hcon
  by_cases hab : keyLt (sortKey a) (sortKey b) = true
  · have : keyLt (sortKey c) (sortKey b) = true := keyLt_trans hca hab
    rw [this] at h2
    exact Bool.noConfusion h2
  · have hab' : keyLt (sortKey a) (sortKey b) = false := by simpa using hab
    have : sortKey a = sortKey b := keyLt_conn hab' h1
    rw [← this] at h2
    rw [hca] at h2
    exact Bool.noConfusion h2

instance : IsTotal VMIdentifier vmLe := ⟨vmLe_total⟩

instance : IsTrans VMIdentifier vmLe := ⟨fun _ _ _ => vmLe_trans'⟩

theorem vmLt_asymm' {a b : VMIdentifier} (h1 : vmLt a b) (h2 : vmLt b a) : False := by
  unfold vmLt at h1 h2
  rw [keyLt_asymm h1] at h2
  exact Bool.false_ne_true h2

instance : IsAntisymm VMIdentifier vmLt := ⟨fun _ _ h1 h2 => absurd h2 (fun h => vmLt_asymm' h1 h)⟩

/-- A weakly sorted list whose sort keys are pairwise distinct is strictly
sorted. -/
theorem sorted_vmLt_of_sorted_vmLe {l : List VMIdentifier}
    (hs : l.Sorted vmLe) (hk : (l.map sortKey).Nodup) : l.Sorted vmLt := by
  have hk' : l.Pairwise (fun a b => sortKey a ≠ sortKey b) :=
    List.pairwise_map.mp hk
  refine (hs.and hk').imp ?_
  rintro a b ⟨hle, hne⟩
  unfold vmLe at hle
  unfold vmLt
  by_contra hlt
  have hlt' : keyLt (sortKey a) (sortKey b) = false := by simpa using hlt
  exact hne (keyLt_conn hlt' hle)

/-- `pySortVms` is a permutation of its input. -/
theorem pySortVms_perm (l : List VMIdentifier) : (pySortVms l).Perm l :=
  List.perm_insertionSort vmLe l

/-- `pySortVms` sorts by the `(proxmox_node, vmid)` key. -/
theorem pySortVms_sorted (l : List VMIdentifier) : (pySortVms l).Sorted vmLe :=
  List.sorted_insertionSort vmLe l

/-- Sorting is deterministic on a node set with pairwise-distinct
`(proxmox_node, vmid)` keys: any two permutations of it sort equal. -/
theorem pySortVms_deterministic {l₁ l₂ : List VMIdentifier}
    (hperm : l₁.Perm l₂) (hk : (l₁.map sortKey).Nodup) :
    pySortVms l₁ = pySortVms l₂ := by
  have hperm' : (pySortVms l₁).Perm (pySortVms l₂) :=
    ((pySortVms_perm l₁).trans hperm).trans (pySortVms_perm l₂).symm
  have hk₁ : ((pySortVms l₁).map sortKey).Nodup :=
    (((pySortVms_perm l₁).map sortKey).nodup_iff).mpr hk
  have hk₂ : ((pySortVms l₂).map sortKey).Nodup :=
    ((hperm'.map sortKey).nodup_iff).mp hk₁
  exact List.eq_of_perm_of_sorted hperm'
    (sorted_vmLt_of_sorted_vmLe (pySortVms_sorted l₁) hk₁)
    (sorted_vmLt_of_sorted_vmLe (pySortVms_sorted l₂) hk₂)

/-! ## Branch characterization of the per-node convergence step -/

theorem processNode_fetchFailed {t ssh force e st nc}
    (h : effectiveConfig nc = .error ()) :
    processNode t ssh force e st nc = (st, .fetchFailed, nc.cfg0) := by
  unfold processNode
  rw [h]

theorem processNode_exhausted {t ssh force e st nc cfg}
    (h : effectiveConfig nc = .ok cfg) (h2 : st.next_ip_to_assign_int > e) :
    processNode t ssh force e st nc = (st, .exhausted, cfg) := by
  unfold processNode
  rw [h]
  simp [h2]

theorem processNode_skipped {t ssh force e st nc cfg}
    (h : effectiveConfig nc = .ok cfg) (h2 : ¬ st.next_ip_to_assign_int > e)
    (h3 : needs_update force cfg (targetIpconfigValue t st.next_ip_to_assign_int)
      (targetNameserverValue t) t.search_domain = false) :
    processNode t ssh force e st nc = (bumpCursor st, .skipped, cfg) := by
  unfold processNode
  rw [h]
  simp [h2, h3, bumpCursor]

theorem processNode_written {t ssh force e st nc cfg}
    (h : effectiveConfig nc = .ok cfg) (h2 : ¬ st.next_ip_to_assign_int > e)
    (h3 : needs_update force cfg (targetIpconfigValue t st.next_ip_to_assign_int)
      (targetNameserverValue t) t.search_domain = true)
    (h4 : nc.write_ok = true) :
    processNode t ssh force e st nc =
      (recordWrite st nc, .written,
        applyNetworkWrite (targetIpconfigValue t st.next_ip_to_assign_int)
          (targetNameserverValue t) t.search_domain ssh cfg) := by
  unfold processNode
  rw [h]
  simp [h2, h3, h4, recordWrite]

theorem processNode_writeFailed {t ssh force e st nc cfg}
    (h : effectiveConfig nc = .ok cfg) (h2 : ¬ st.next_ip_to_assign_int > e)
    (h3 : needs_update force cfg (targetIpconfigValue t st.next_ip_to_assign_int)
      (targetNameserverValue t) t.search_domain = true)
    (h4 : nc.write_ok = false) :
    processNode t ssh force e st nc = (bumpCursor st, .writeFailed, cfg) := by
  unfold processNode
  rw [h]
  simp [h2, h3, h4, bumpCursor]

/-- Every run of the per-node step is one of the five branches. -/
theorem processNode_cases (t : ConvTargets) (ssh : Option String) (force : Bool)
    (e : Nat) (st : ConvState) (nc : NodeCtx) :
    (effectiveConfig nc = .error () ∧
      processNode t ssh force e st nc = (st, .fetchFailed, nc.cfg0)) ∨
    (∃ cfg, effectiveConfig nc = .ok cfg ∧ st.next_ip_to_assign_int > e ∧
      processNode t ssh force e st nc = (st, .exhausted, cfg)) ∨
    (∃ cfg, effectiveConfig nc = .ok cfg ∧ ¬ st.next_ip_to_assign_int > e ∧
      needs_update force cfg (targetIpconfigValue t st.next_ip_to_assign_int)
        (targetNameserverValue t) t.search_domain = false ∧
      processNode t ssh force e st nc = (bumpCursor st, .skipped, cfg)) ∨
    (∃ cfg, effectiveConfig nc = .ok cfg ∧ ¬ st.next_ip_to_assign_int > e ∧
      needs_update force cfg (targetIpconfigValue t st.next_ip_to_assign_int)
        (targetNameserverValue t) t.search_domain = true ∧ nc.write_ok = true ∧
      processNode t ssh force e st nc =
        (recordWrite st nc, .written,
          applyNetworkWrite (targetIpconfigValue t st.next_ip_to_assign_int)
            (targetNameserverValue t) t.search_domain ssh cfg)) ∨
    (∃ cfg, effectiveConfig nc = .ok cfg ∧ ¬ st.next_ip_to_assign_int > e ∧
      needs_update force cfg (targetIpconfigValue t st.next_ip_to_assign_int)
        (targetNameserverValue t) t.search_domain = true ∧ nc.write_ok = false ∧
      processNode t ssh force e st nc = (bumpCursor st, .writeFailed, cfg)) := by
  cases heff : effectiveConfig nc with
  | error u =>
    cases u
    exact Or.inl ⟨rfl, processNode_fetchFailed heff⟩
  | ok cfg =>
    by_cases h2 : st.next_ip_to_assign_int > e
    · exact Or.inr (Or.inl ⟨cfg, rfl, h2, processNode_exhausted heff h2⟩)
    · by_cases h3 : needs_update force cfg (targetIpconfigValue t st.next_ip_to_assign_int)
        (targetNameserverValue t) t.search_domain = true
      · by_cases h4 : nc.write_ok = true
        · exact Or.inr (Or.inr (Or.inr (Or.inl
            ⟨cfg, rfl, h2, h3, h4, processNode_written heff h2 h3 h4⟩)))
        · have h4' : nc.write_ok = false := Bool.not_eq_true _ ▸ (by simpa using h4)
          exact Or.inr (Or.inr (Or.inr (Or.inr
            ⟨cfg, rfl, h2, h3, h4', processNode_writeFailed heff h2 h3 h4'⟩)))
      · have h3' : needs_update force cfg (targetIpconfigValue t st.next_ip_to_assign_int)
          (targetNameserverValue t) t.search_domain = false := by simpa using h3
        exact Or.inr (Or.inr (Or.inl ⟨cfg, rfl, h2, h3', processNode_skipped heff h2 h3'⟩))

/-! ## C1 -/

/-- C1: the claim says the restart phase issues a `restart` power action
for every ledger VM with per-VM failures logged, and that `control_vm`
rejects an invalid action locally before any remote call.  The second
half holds (first conjunct), but precisely because of it the first half
fails: `"restart"` is not in `valid_actions`, so `control_vm` raises
`ValueError` before any API call, and `configure_vms`'s `except
ProxmoxError` handler does not catch it — the restart phase aborts at the
first ledger VM with no power action posted (second conjunct), instead of
restarting every VM. -/
theorem restart_phase_raises_value_error :
    (∀ (r : RemoteVm) (action : String), valid_actions.contains action = false →
      control_vm r action = (.error .valueError, [])) ∧
    (∀ (remote : VMIdentifier → RemoteVm) (vm : VMIdentifier) (rest : List VMIdentifier),
      restartModifiedVms remote (vm :: rest) = (.error .valueError, [])) := by
  constructor
  · intro r action h
    have h' : ¬ action ∈ valid_actions := by simpa using h
    simp [control_vm, h']
  · intro remote vm rest
    have h : ¬ "restart" ∈ valid_actions := by decide
    simp [restartModifiedVms, control_vm, h]

/-- C1 witness: at the concrete ledger `[pve1:100, pve1:101]` with a
remote that accepts every post, the restart phase still aborts with
`ValueError` and posts nothing. -/
theorem restart_phase_raises_value_error_witness :
    valid_actions.contains "restart" = false ∧
    control_vm demoRemote "restart" = (.error .valueError, []) ∧
    restartModifiedVms (fun _ => demoRemote) [demoVm100, demoVm101] =
      (.error .valueError, []) :=
  ⟨by decide,
   restart_phase_raises_value_error.1 demoRemote "restart" (by decide),
   restart_phase_raises_value_error.2 (fun _ => demoRemote) demoVm100 [demoVm101]⟩

/-! ## C7 -/

/-- C7: the lifecycle transition table for a node whose status fetch
succeeds: `start` is a no-op on a running VM and issues `start`
otherwise; `stop` is a no-op on a stopped VM and issues the operation's
`stop` otherwise, which `control_vm` maps to a `shutdown` post at the
transport level; `restart` issues `reboot` on a running VM and `start`
on any other status. -/
theorem perform_vm_action_transition_table (s : String) (r : RemoteVm) :
    (pyLower s = "running" → perform_vm_action_step "start" (.ok (some s)) = .noop) ∧
    (pyLower s ≠ "running" →
      perform_vm_action_step "start" (.ok (some s)) = .issue "start") ∧
    (pyLower s = "stopped" → perform_vm_action_step "stop" (.ok (some s)) = .noop) ∧
    (pyLower s ≠ "stopped" →
      perform_vm_action_step "stop" (.ok (some s)) = .issue "stop") ∧
    (pyLower s = "running" →
      perform_vm_action_step "restart" (.ok (some s)) = .issue "reboot") ∧
    (pyLower s ≠ "running" →
      perform_vm_action_step "restart" (.ok (some s)) = .issue "start") ∧
    (control_vm r "stop").2 = ["shutdown"] ∧
    (control_vm r "start").2 = ["start"] ∧
    (control_vm r "reboot").2 = ["reboot"] := by
  refine ⟨?_, ?_, ?_, ?_, ?_, ?_, ?_, ?_, ?_⟩
  · intro h
    simp [perform_vm_action_step, h]
  · intro h
    simp [perform_vm_action_step, h]
  · intro h
    simp [perform_vm_action_step, h]
  · intro h
    simp [perform_vm_action_step, h]
  · intro h
    simp [perform_vm_action_step, h]
  · intro h
    simp [perform_vm_action_step, h]
  · have hv : "stop" ∈ valid_actions := by decide
    cases hp : r.post "shutdown" <;> simp [control_vm, hv, hp]
  · have hv : "start" ∈ valid_actions := by decide
    cases hp : r.post "start" <;> simp [control_vm, hv, hp]
  · have hv : "reboot" ∈ valid_actions := by decide
    cases hp : r.post "reboot" <;> simp [control_vm, hv, hp]

/-- C7 witness: a `restart` on a VM whose fetched status is `"Stopped"`
issues `start`, not `reboot`; a `stop` on a running VM posts `shutdown`
at the transport level. -/
theorem perform_vm_action_transition_table_witness :
    pyLower "Stopped" ≠ "running" ∧
    perform_vm_action_step "restart" (.ok (some "Stopped")) = .issue "start" ∧
    (control_vm demoRemote "stop").2 = ["shutdown"] :=
  ⟨by decide,
   (perform_vm_action_transition_table "Stopped" demoRemote).2.2.2.2.2.1 (by decide),
   (perform_vm_action_transition_table "Stopped" demoRemote).2.2.2.2.2.2.1⟩

/-! ## C3 -/

/-- C3 counterexample: a discovery run that enumerates a host and walks a
VM carrying no role tags completes without raising — it returns the
(empty) populated lists, with only a warning logged (`k3s_manager.py`
lines 251-258: "Not raising an error here, let the caller decide").  The
claim says this situation raises `NodeDiscoveryError`. -/
theorem discovery_without_role_tags_returns_ok :
    discover_nodes_by_tags demoNoTagWorld = .ok (populate_node_lists {}) ∧
    (populate_node_lists ({} : NodeLists)).all_nodes = [] ∧
    (populate_node_lists ({} : NodeLists)).server_master = none :=
  ⟨rfl, rfl, rfl⟩

/-- C3 (amended): `discover_nodes_by_tags` raises `NodeDiscoveryError` in
exactly two situations — the host-list call fails, or it returns an empty
host list.  When no VM carries a recognized role tag the discovery itself
returns normally with empty lists and only warns; it is the caller
(`ensure_nodes_are_discovered`) that raises if the lists stay empty. -/
theorem discover_nodes_error_iff (w : DiscoveryWorld) :
    discover_nodes_by_tags w = .error () ↔
      (w.cluster_nodes = .error () ∨ w.cluster_nodes = .ok []) := by
  unfold discover_nodes_by_tags
  cases h : w.cluster_nodes with
  | error u =>
    cases u
    simp
  | ok hosts =>
    cases hosts with
    | nil => simp
    | cons a as => simp [List.isEmpty]

/-- C3 witness: with hosts enumerating to the empty list, discovery
raises `NodeDiscoveryError`. -/
theorem discover_nodes_error_iff_witness :
    discover_nodes_by_tags demoEmptyHostsWorld = .error () :=
  (discover_nodes_error_iff demoEmptyHostsWorld).mpr (Or.inr rfl)

/-! ## C8 -/

/-- C8 counterexample: a `config.json` that exists, reads and decodes as
JSON, but decodes to a top-level array (not the expected mapping), makes
the loader escape with an unhandled `AttributeError` (from
`data.get("nodes", [])` on a list), not the `ConfigurationError` the
claim requires for a file "not parseable as the expected structure". -/
theorem load_nodes_wrong_shape_not_configuration_error :
    load_nodes_from_config_file (some (.ok (.arr []))) {} = .error .attributeError ∧
    LoadExc.attributeError ≠ LoadExc.configurationError :=
  ⟨rfl, by decide⟩

/-- C8 (amended): the loader returns absent (`False`) with the in-memory
lists untouched when the backing file does not exist; raises
`ConfigurationError` when the file exists but cannot be read or fails
JSON decoding; and a file that decodes to a JSON value of unexpected
shape (e.g. a top-level array) instead escapes with an unhandled
`AttributeError`. -/
theorem load_nodes_file_error_modes :
    (∀ st : CfgLists, load_nodes_from_config_file none st = .ok (false, st)) ∧
    (∀ st : CfgLists,
      load_nodes_from_config_file (some (.error ())) st = .error .configurationError) ∧
    (∀ (xs : List Json) (st : CfgLists),
      load_nodes_from_config_file (some (.ok (.arr xs))) st = .error .attributeError) :=
  ⟨fun _ => rfl, fun _ => rfl, fun _ _ => rfl⟩

/-- C8 witness: the three modes at concrete inputs. -/
theorem load_nodes_file_error_modes_witness :
    load_nodes_from_config_file none {} = .ok (false, {}) ∧
    load_nodes_from_config_file (some (.error ())) {} = .error .configurationError ∧
    load_nodes_from_config_file (some (.ok (.arr [.num 1]))) {} = .error .attributeError :=
  ⟨load_nodes_file_error_modes.1 {}, load_nodes_file_error_modes.2.1 {},
   load_nodes_file_error_modes.2.2 [.num 1] {}⟩

/-! ## C9 -/

theorem get_ssh_public_key_env_falsy {e : SshKeyEnv} (h : envKeyFalsy e) :
    get_ssh_public_key e = getSshKeyFromConfigOrFile e := by
  unfold get_ssh_public_key
  unfold envKeyFalsy at h
  cases henv : e.SSH_PUBLIC_KEY with
  | none => rfl
  | some k =>
    rw [henv] at h
    subst h
    rfl

theorem getSshKeyFromConfigOrFile_no_key {e : SshKeyEnv} (h : cfgFileHasNoSshKey e) :
    getSshKeyFromConfigOrFile e = getSshKeyFromFile e := by
  unfold getSshKeyFromConfigOrFile
  unfold cfgFileHasNoSshKey at h
  cases hcf : e.node_config_file with
  | none => rfl
  | some r =>
    cases r with
    | error u => rfl
    | ok data =>
      rw [hcf] at h
      simp [h]

/-- C9 counterexample: with the environment key unset, `config.json`
holding `"ssh_key": ""` and the key file holding a non-empty key, the
resolver returns the empty config value (falsy — no key downstream)
instead of falling through to the key file as "first source that yields
non-empty content" requires. -/
theorem ssh_key_empty_config_value_shadows_key_file :
    get_ssh_public_key demoSshEnv = some (.str "") ∧
    sshKeyTruthy (get_ssh_public_key demoSshEnv) = false ∧
    pyStrip "ssh-rsa AAA" ≠ "" ∧
    Json.str "" ≠ .str (pyStrip "ssh-rsa AAA") :=
  ⟨rfl, rfl, by decide, by simp only [ne_eq, Json.str.injEq]; decide⟩

/-- C9 (amended): SSH key resolution tries (a) the configured key string
(must be truthy to win), then (b) the config-file data — which wins as
soon as the `ssh_key` field is *present*, whatever its value, so an empty
or null field value does not fall through to (c) — then (c) the key
file's stripped contents when non-empty; when every source yields
nothing the result is no key (not an error), and `configure_vms` then
behaves exactly as with no key source configured at all (network-only
writes after a warning). -/
theorem get_ssh_public_key_priority :
    (∀ (e : SshKeyEnv) (k : String), e.SSH_PUBLIC_KEY = some k → k ≠ "" →
      get_ssh_public_key e = some (.str k)) ∧
    (∀ (e : SshKeyEnv) (data : Json), envKeyFalsy e →
      e.node_config_file = some (.ok data) → pyHasKey data "ssh_key" = true →
      get_ssh_public_key e = some (pySubscript data "ssh_key")) ∧
    (∀ (e : SshKeyEnv) (contents : String), envKeyFalsy e → cfgFileHasNoSshKey e →
      e.ssh_key_file = some (.ok contents) → pyStrip contents ≠ "" →
      get_ssh_public_key e = some (.str (pyStrip contents))) ∧
    (∀ e : SshKeyEnv, envKeyFalsy e → cfgFileHasNoSshKey e → keyFileYieldsNothing e →
      get_ssh_public_key e = none) ∧
    (∀ (t : ConvTargets) (e : SshKeyEnv) (remote : VMIdentifier → RemoteVm)
      (restart_after force : Bool) (s en : Nat) (ncs : List NodeCtx),
      get_ssh_public_key e = none →
      configure_vms t e remote restart_after force s en ncs =
        configure_vms t demoNoKeyEnv remote restart_after force s en ncs) := by
  refine ⟨?_, ?_, ?_, ?_, ?_⟩
  · intro e k h1 h2
    unfold get_ssh_public_key
    rw [h1]
    simp [h2]
  · intro e data h1 h2 h3
    rw [get_ssh_public_key_env_falsy h1]
    unfold getSshKeyFromConfigOrFile
    rw [h2]
    simp [h3]
  · intro e contents h1 h2 h3 h4
    rw [get_ssh_public_key_env_falsy h1, getSshKeyFromConfigOrFile_no_key h2]
    unfold getSshKeyFromFile
    rw [h3]
    simp [h4]
  · intro e h1 h2 h3
    rw [get_ssh_public_key_env_falsy h1, getSshKeyFromConfigOrFile_no_key h2]
    unfold getSshKeyFromFile
    unfold keyFileYieldsNothing at h3
    cases hkf : e.ssh_key_file with
    | none => rfl
    | some r =>
      cases r with
      | error u => rfl
      | ok contents =>
        rw [hkf] at h3
        simp [h3]
  · intro t e remote restart_after force s en ncs h
    unfold configure_vms
    rw [h]
    rfl

/-- C9 witness: the amended sequence at concrete inputs — an all-absent
environment resolves to no key, and the convergence entry point behaves
identically to the no-key run. -/
theorem get_ssh_public_key_priority_witness :
    envKeyFalsy demoNoKeyEnv ∧ cfgFileHasNoSshKey demoNoKeyEnv ∧
    keyFileYieldsNothing demoNoKeyEnv ∧
    get_ssh_public_key demoNoKeyEnv = none ∧
    configure_vms demoTargets demoNoKeyEnv (fun _ => demoRemote) false false
        demoRangeStart demoRangeEnd [demoFreshNode demoVm100] =
      configure_vms demoTargets demoNoKeyEnv (fun _ => demoRemote) false false
        demoRangeStart demoRangeEnd [demoFreshNode demoVm100] :=
  ⟨trivial, trivial, trivial,
   get_ssh_public_key_priority.2.2.2.1 demoNoKeyEnv trivial trivial trivial,
   get_ssh_public_key_priority.2.2.2.2 demoTargets demoNoKeyEnv (fun _ => demoRemote)
     false false demoRangeStart demoRangeEnd [demoFreshNode demoVm100]
     (get_ssh_public_key_priority.2.2.2.1 demoNoKeyEnv trivial trivial trivial)⟩

/-! ## C10 -/

theorem loadVmEntries_truthy {pid : Json} (hpid : pyTruthy pid = true) :
    ∀ {vms : List Json} {out : List (Role × CfgVM)},
      loadVmEntries pid vms = .ok out →
      ∀ rc ∈ out, pyTruthy rc.2.proxmox_node = true ∧ pyTruthy rc.2.vmid = true := by
  intro vms
  induction vms with
  | nil =>
    intro out h rc hm
    simp [loadVmEntries] at h
    subst h
    simp at hm
  | cons vm_info rest ih =>
    intro out h rc hm
    unfold loadVmEntries at h
    cases h1 : pyGetD vm_info "vmid" .null with
    | error u => rw [h1] at h; exact absurd h (by simp)
    | ok vmid =>
      cases h2 : pyGetD vm_info "role" (.str "") with
      | error u => rw [h1, h2] at h; exact absurd h (by simp)
      | ok roleVal =>
        rw [h1, h2] at h
        by_cases hv : pyTruthy vmid = true
        · simp only [hv, Bool.not_true] at h
          simp only [Bool.false_eq_true, if_false] at h
          cases hc : classifyRole (pyUpper (pyStr roleVal)) with
          | none =>
            rw [hc] at h
            exact ih h rc hm
          | some r =>
            rw [hc] at h
            cases h3 : loadVmEntries pid rest with
            | error u => rw [h3] at h; exact absurd h (by simp [Except.map])
            | ok tail =>
              rw [h3] at h
              simp only [Except.map, Except.ok.injEq] at h
              subst h
              rcases List.mem_cons.mp hm with hm | hm
              · subst hm
                exact ⟨hpid, hv⟩
              · exact ih h3 rc hm
        · have hv' : pyTruthy vmid = false := by simpa using hv
          simp only [hv', Bool.not_false, if_true] at h
          exact ih h rc hm

theorem loadHostEntry_truthy {p : Json} {out : List (Role × CfgVM)}
    (h : loadHostEntry p = .ok out) :
    ∀ rc ∈ out, pyTruthy rc.2.proxmox_node = true ∧ pyTruthy rc.2.vmid = true := by
  unfold loadHostEntry at h
  cases h1 : pyGetD p "id" .null with
  | error u => rw [h1] at h; exact absurd h (by simp)
  | ok pid =>
    rw [h1] at h
    by_cases hp : pyTruthy pid = true
    · simp only [hp, Bool.not_true, Bool.false_eq_true, if_false] at h
      cases h2 : pyGetD p "vms" (.arr []) with
      | error u => simp only [h2] at h; exact absurd h (by simp)
      | ok vmsVal =>
        simp only [h2] at h
        cases h3 : pyIter vmsVal with
        | error u => simp only [h3] at h; exact absurd h (by simp)
        | ok vm_infos =>
          simp only [h3] at h
          exact loadVmEntries_truthy hp h
    · have hp' : pyTruthy pid = false := by simpa using hp
      simp only [hp', Bool.not_false, if_true, Except.ok.injEq] at h
      subst h
      intro rc hm
      simp at hm

theorem loadHostEntries_truthy :
    ∀ {ps : List Json} {out : List (Role × CfgVM)},
      loadHostEntries ps = .ok out →
      ∀ rc ∈ out, pyTruthy rc.2.proxmox_node = true ∧ pyTruthy rc.2.vmid = true := by
  intro ps
  induction ps with
  | nil =>
    intro out h rc hm
    simp [loadHostEntries] at h
    subst h
    simp at hm
  | cons p rest ih =>
    intro out h rc hm
    unfold loadHostEntries at h
    cases h1 : loadHostEntry p with
    | error u => rw [h1] at h; exact absurd h (by simp)
    | ok entries =>
      rw [h1] at h
      cases h2 : loadHostEntries rest with
      | error u => rw [h2] at h; exact absurd h (by simp [Except.map])
      | ok tail =>
        rw [h2] at h
        simp only [Except.map, Except.ok.injEq] at h
        subst h
        rcases List.mem_append.mp hm with hm | hm
        · exact loadHostEntry_truthy h1 rc hm
        · exact ih h2 rc hm

theorem loadNodesParse_truthy {data : Json} {entries : List (Role × CfgVM)}
    (h : loadNodesParse data = .ok entries) :
    ∀ rc ∈ entries, pyTruthy rc.2.proxmox_node = true ∧ pyTruthy rc.2.vmid = true := by
  unfold loadNodesParse at h
  cases h1 : pyGetD data "nodes" (.arr []) with
  | error u => simp only [h1] at h; exact absurd h (by simp)
  | ok nodesVal =>
    simp only [h1] at h
    cases h2 : pyIter nodesVal with
    | error u => simp only [h2] at h; exact absurd h (by simp)
    | ok p_node_infos =>
      simp only [h2] at h
      exact loadHostEntries_truthy h

/-- C10: every VM entry the config-file loader keeps has a truthy host
`id` and a truthy `vmid`; host entries with a missing or falsy `id` and
VM entries with a missing or falsy `vmid` (in particular `vmid 0`) are
silently skipped, so a `vmid 0` entry appears in no role list even when
its role is recognized. -/
theorem loader_excludes_falsy_ids :
    ∀ (data : Json) (st : CfgLists) (b : Bool) (ls : CfgLists),
      load_nodes_from_config_file (some (.ok data)) st = .ok (b, ls) →
      ((ls.servers ++ ls.agents ++ ls.storage).all
        (fun v => pyTruthy v.proxmox_node && pyTruthy v.vmid)) = true := by
  intro data st b ls h
  simp only [load_nodes_from_config_file] at h
  cases hp : loadNodesParse data with
  | error u => simp only [hp] at h; exact absurd h (by simp)
  | ok entries =>
    simp only [hp, Except.ok.injEq, Prod.mk.injEq] at h
    obtain ⟨-, hls⟩ := h
    subst hls
    rw [List.all_eq_true]
    intro v hv
    have : ∃ rc ∈ entries, rc.2 = v := by
      rcases List.mem_append.mp hv with hv' | hv'
      · rcases List.mem_append.mp hv' with hv'' | hv''
        · obtain ⟨rc, hrc, hsome⟩ := List.mem_filterMap.mp hv''
          refine ⟨rc, hrc, ?_⟩
          by_cases hr : rc.1 = Role.server
          · simpa [hr] using hsome
          · simp [hr] at hsome
        · obtain ⟨rc, hrc, hsome⟩ := List.mem_filterMap.mp hv''
          refine ⟨rc, hrc, ?_⟩
          by_cases hr : rc.1 = Role.agent
          · simpa [hr] using hsome
          · simp [hr] at hsome
      · obtain ⟨rc, hrc, hsome⟩ := List.mem_filterMap.mp hv'
        refine ⟨rc, hrc, ?_⟩
        by_cases hr : rc.1 = Role.storage
        · simpa [hr] using hsome
        · simp [hr] at hsome
    obtain ⟨rc, hrc, hv2⟩ := this
    have := loadNodesParse_truthy hp rc hrc
    rw [hv2] at this
    simp [this.1, this.2]

/-- C10 witness: on concrete config data with a `vmid 0` SERVER entry and
a `vmid 100` SERVER entry, the loader keeps only `(pve1, 100)` and every
kept entry has truthy id and vmid. -/
theorem loader_excludes_falsy_ids_witness :
    load_nodes_from_config_file (some (.ok demoCfgData)) {} = .ok (true, demoLoadedLists) ∧
    ((demoLoadedLists.servers ++ demoLoadedLists.agents ++ demoLoadedLists.storage).all
      (fun v => pyTruthy v.proxmox_node && pyTruthy v.vmid)) = true :=
  ⟨rfl, loader_excludes_falsy_ids demoCfgData {} true demoLoadedLists rfl⟩

/-! ## C2 -/

/-- Equation lemma: the convergence loop on a cons cell. -/
theorem configureVmsLoop_cons (t : ConvTargets) (ssh : Option String) (force : Bool)
    (e : Nat) (st : ConvState) (nc : NodeCtx) (rest : List NodeCtx) :
    configureVmsLoop t ssh force e st (nc :: rest) =
      ((configureVmsLoop t ssh force e (processNode t ssh force e st nc).1 rest).1,
       (processNode t ssh force e st nc).2 ::
         (configureVmsLoop t ssh force e (processNode t ssh force e st nc).1 rest).2) := rfl

/-- Per-node cursor behaviour: the cursor is unchanged exactly in the
fetch-failure and exhaustion branches and advances by one in every other
branch. -/
theorem processNode_cursor (t : ConvTargets) (ssh : Option String) (force : Bool)
    (e : Nat) (st : ConvState) (nc : NodeCtx) :
    ((processNode t ssh force e st nc).2.1 = NodeOutcome.fetchFailed ∨
      (processNode t ssh force e st nc).2.1 = NodeOutcome.exhausted →
      (processNode t ssh force e st nc).1.next_ip_to_assign_int =
        st.next_ip_to_assign_int) ∧
    ((processNode t ssh force e st nc).2.1 ≠ NodeOutcome.fetchFailed ∧
      (processNode t ssh force e st nc).2.1 ≠ NodeOutcome.exhausted →
      (processNode t ssh force e st nc).1.next_ip_to_assign_int =
        st.next_ip_to_assign_int + 1) := by
  rcases processNode_cases t ssh force e st nc with
    ⟨-, heq⟩ | ⟨cfg, -, -, heq⟩ | ⟨cfg, -, -, -, heq⟩ | ⟨cfg, -, -, -, -, heq⟩ |
    ⟨cfg, -, -, -, -, heq⟩
  · rw [heq]
    exact ⟨fun _ => rfl, fun h => absurd rfl h.1⟩
  · rw [heq]
    exact ⟨fun _ => rfl, fun h => absurd rfl h.2⟩
  · rw [heq]
    exact ⟨fun h => absurd h (by simp), fun _ => rfl⟩
  · rw [heq]
    exact ⟨fun h => absurd h (by simp), fun _ => rfl⟩
  · rw [heq]
    exact ⟨fun h => absurd h (by simp), fun _ => rfl⟩

/-- C2 counterexample: a node whose in-memory map is empty and whose
`get_vm_config` fetch fails is skipped by `continue` *before* the cursor
increment (`k3s_manager.py` lines 547-554 versus 650), so the cursor does
not advance for it even though its branch is not range exhaustion — the
claim's "sole exception" is violated, and after this one-node pass the
cursor is `start`, not `start + 1`. -/
theorem cursor_frozen_on_fetch_failure :
    configureVmsLoop demoTargets none false demoRangeEnd
        { next_ip_to_assign_int := demoRangeStart } [demoFetchFailNode] =
      ({ next_ip_to_assign_int := demoRangeStart }, [(NodeOutcome.fetchFailed, {})]) ∧
    NodeOutcome.fetchFailed ≠ NodeOutcome.exhausted ∧
    demoRangeStart ≠ demoRangeStart + 1 :=
  ⟨rfl, by decide, by decide⟩

/-- C2 (amended): the cursor advances by exactly one position per node in
the idempotent-skip, successful-write and failed-write branches, and does
not advance in exactly two branches: range exhaustion *and* a failed
attribute-map fetch (which `continue`s before an address is considered);
hence over a pass in which no node hits exhaustion or a fetch failure the
final cursor is the start plus the number of nodes. -/
theorem cursor_advances_once_per_node :
    (∀ (t : ConvTargets) (ssh : Option String) (force : Bool) (e : Nat)
        (st : ConvState) (nc : NodeCtx),
      ((processNode t ssh force e st nc).2.1 = NodeOutcome.fetchFailed ∨
        (processNode t ssh force e st nc).2.1 = NodeOutcome.exhausted →
        (processNode t ssh force e st nc).1.next_ip_to_assign_int =
          st.next_ip_to_assign_int) ∧
      ((processNode t ssh force e st nc).2.1 ≠ NodeOutcome.fetchFailed ∧
        (processNode t ssh force e st nc).2.1 ≠ NodeOutcome.exhausted →
        (processNode t ssh force e st nc).1.next_ip_to_assign_int =
          st.next_ip_to_assign_int + 1)) ∧
    (∀ (t : ConvTargets) (ssh : Option String) (force : Bool) (e : Nat)
        (st : ConvState) (ncs : List NodeCtx),
      (∀ oc ∈ (configureVmsLoop t ssh force e st ncs).2,
        oc.1 ≠ NodeOutcome.fetchFailed ∧ oc.1 ≠ NodeOutcome.exhausted) →
      (configureVmsLoop t ssh force e st ncs).1.next_ip_to_assign_int =
        st.next_ip_to_assign_int + ncs.length) := by
  refine ⟨processNode_cursor, ?_⟩
  intro t ssh force e st ncs
  induction ncs generalizing st with
  | nil =>
    intro _
    simp [configureVmsLoop]
  | cons nc rest ih =>
    intro h
    rw [configureVmsLoop_cons] at h ⊢
    have hhead := h (processNode t ssh force e st nc).2 (List.mem_cons_self _ _)
    have htail : ∀ oc ∈ (configureVmsLoop t ssh force e
        (processNode t ssh force e st nc).1 rest).2,
        oc.1 ≠ NodeOutcome.fetchFailed ∧ oc.1 ≠ NodeOutcome.exhausted :=
      fun oc hm => h oc (List.mem_cons_of_mem _ hm)
    have hstep := (processNode_cursor t ssh force e st nc).2 hhead
    have := ih (processNode t ssh force e st nc).1 htail
    simp only [this, hstep, List.length_cons]
    omega

/-- C2 witness: a two-node pass (both written) advances the cursor by
exactly two. -/
theorem cursor_advances_once_per_node_witness :
    (∀ oc ∈ (configureVmsLoop demoTargets none false demoRangeEnd
        { next_ip_to_assign_int := demoRangeStart }
        [demoFreshNode demoVm100, demoFreshNode demoVm101]).2,
      oc.1 ≠ NodeOutcome.fetchFailed ∧ oc.1 ≠ NodeOutcome.exhausted) ∧
    (configureVmsLoop demoTargets none false demoRangeEnd
        { next_ip_to_assign_int := demoRangeStart }
        [demoFreshNode demoVm100, demoFreshNode demoVm101]).1.next_ip_to_assign_int =
      demoRangeStart + 2 :=
  ⟨by decide, by
    have := cursor_advances_once_per_node.2 demoTargets none false demoRangeEnd
      { next_ip_to_assign_int := demoRangeStart }
      [demoFreshNode demoVm100, demoFreshNode demoVm101] (by decide)
    simpa using this⟩

/-! ## C4 -/

/-- C4: for a node that reaches the idempotency check (attribute map
available, range not exhausted), needs-update holds iff `force` is set,
or the stored network-config string differs from the target, or a
non-empty target nameserver differs from the stored one, or a non-empty
target search domain differs from the stored one; a node with
needs-update false takes the skip branch and the ledger is unchanged; a
node with needs-update true is written and lands in the ledger exactly
when the write succeeds; and `force = true` makes needs-update hold for
every node. -/
theorem needs_update_characterization :
    ∀ (t : ConvTargets) (ssh : Option String) (force : Bool) (e : Nat)
      (st : ConvState) (nc : NodeCtx) (cfg : VmConfigMap),
      effectiveConfig nc = .ok cfg → ¬ st.next_ip_to_assign_int > e →
      (needs_update force cfg (targetIpconfigValue t st.next_ip_to_assign_int)
          (targetNameserverValue t) t.search_domain = true ↔
        (force = true ∨
          cfg.ipconfig.getD "" ≠ targetIpconfigValue t st.next_ip_to_assign_int ∨
          (targetNameserverValue t ≠ "" ∧
            cfg.nameserver.getD "" ≠ targetNameserverValue t) ∨
          (t.search_domain ≠ "" ∧ cfg.searchdomain.getD "" ≠ t.search_domain))) ∧
      (needs_update force cfg (targetIpconfigValue t st.next_ip_to_assign_int)
          (targetNameserverValue t) t.search_domain = false →
        (processNode t ssh force e st nc).2.1 = NodeOutcome.skipped ∧
        (processNode t ssh force e st nc).1.modified_vms = st.modified_vms ∧
        (processNode t ssh force e st nc).1.running_modified_vms =
          st.running_modified_vms) ∧
      (needs_update force cfg (targetIpconfigValue t st.next_ip_to_assign_int)
          (targetNameserverValue t) t.search_domain = true → nc.write_ok = true →
        (processNode t ssh force e st nc).2.1 = NodeOutcome.written ∧
        (processNode t ssh force e st nc).1.modified_vms =
          st.modified_vms ++ [nc.vm]) ∧
      (needs_update force cfg (targetIpconfigValue t st.next_ip_to_assign_int)
          (targetNameserverValue t) t.search_domain = true → nc.write_ok = false →
        (processNode t ssh force e st nc).2.1 = NodeOutcome.writeFailed ∧
        (processNode t ssh force e st nc).1.modified_vms = st.modified_vms) ∧
      (force = true →
        needs_update force cfg (targetIpconfigValue t st.next_ip_to_assign_int)
          (targetNameserverValue t) t.search_domain = true) := by
  intro t ssh force e st nc cfg heff h2
  refine ⟨?_, ?_, ?_, ?_, ?_⟩
  · simp only [needs_update, Bool.or_eq_true, Bool.and_eq_true, bne_iff_ne, ne_eq]
    tauto
  · intro h3
    rw [processNode_skipped heff h2 h3]
    exact ⟨rfl, rfl, rfl⟩
  · intro h3 h4
    rw [processNode_written heff h2 h3 h4]
    exact ⟨rfl, rfl⟩
  · intro h3 h4
    rw [processNode_writeFailed heff h2 h3 h4]
    exact ⟨rfl, rfl⟩
  · intro hf
    simp [needs_update, hf]

/-- C4 witness: a node already configured at the target (with
`force = false`) is skipped and the ledger stays empty. -/
theorem needs_update_characterization_witness :
    effectiveConfig demoMatchedNode = .ok (demoConfiguredMap demoRangeStart) ∧
    ¬ demoRangeStart > demoRangeEnd ∧
    needs_update false (demoConfiguredMap demoRangeStart)
      (targetIpconfigValue demoTargets demoRangeStart)
      (targetNameserverValue demoTargets) demoTargets.search_domain = false ∧
    (processNode demoTargets none false demoRangeEnd
      { next_ip_to_assign_int := demoRangeStart } demoMatchedNode).2.1 =
        NodeOutcome.skipped ∧
    (processNode demoTargets none false demoRangeEnd
      { next_ip_to_assign_int := demoRangeStart } demoMatchedNode).1.modified_vms = [] :=
  ⟨rfl, by decide, by decide,
   ((needs_update_characterization demoTargets none false demoRangeEnd
      { next_ip_to_assign_int := demoRangeStart } demoMatchedNode
      (demoConfiguredMap demoRangeStart) rfl (by decide)).2.1 (by decide)).1,
   ((needs_update_characterization demoTargets none false demoRangeEnd
      { next_ip_to_assign_int := demoRangeStart } demoMatchedNode
      (demoConfiguredMap demoRangeStart) rfl (by decide)).2.1 (by decide)).2.1⟩

/-! ## C6 -/

/-- Field equations of `_populate_node_lists`: each list is the sorted
original, the master is the head of the sorted server list, and the
non-master servers are its tail. -/
theorem populate_node_lists_fields (nl : NodeLists) :
    (populate_node_lists nl).servers = pySortVms nl.servers ∧
    (populate_node_lists nl).agents = pySortVms nl.agents ∧
    (populate_node_lists nl).storage = pySortVms nl.storage ∧
    (populate_node_lists nl).all_nodes = pySortVms nl.all_nodes ∧
    (populate_node_lists nl).server_master = (pySortVms nl.servers).head? ∧
    (populate_node_lists nl).servers_no_first = (pySortVms nl.servers).tail := by
  unfold populate_node_lists
  cases h : pySortVms nl.servers with
  | nil => exact ⟨rfl, rfl, rfl, rfl, rfl, rfl⟩
  | cons m rest => exact ⟨rfl, rfl, rfl, rfl, rfl, rfl⟩

/-- C6: under pairwise-distinct `(host, vmid)` keys, `_populate_node_lists`
sorts every role list ascending by `(proxmox_node, vmid)` (each sorted
list a permutation of its input), sets the master to the first sorted
server — absent iff the server list is empty — and the non-master servers
to the remaining sorted elements; and the master is the same for any
permutation of the same server set (deterministic selection). -/
theorem populate_node_lists_spec :
    ∀ nl nl₂ : NodeLists,
      (nl.servers.map sortKey).Nodup →
      nl₂.servers.Perm nl.servers →
      ((populate_node_lists nl).servers.Sorted vmLe ∧
        (populate_node_lists nl).agents.Sorted vmLe ∧
        (populate_node_lists nl).storage.Sorted vmLe ∧
        (populate_node_lists nl).all_nodes.Sorted vmLe) ∧
      ((populate_node_lists nl).servers.Perm nl.servers ∧
        (populate_node_lists nl).agents.Perm nl.agents ∧
        (populate_node_lists nl).storage.Perm nl.storage ∧
        (populate_node_lists nl).all_nodes.Perm nl.all_nodes) ∧
      (populate_node_lists nl).server_master =
        (populate_node_lists nl).servers.head? ∧
      ((populate_node_lists nl).server_master = none ↔ nl.servers = []) ∧
      (populate_node_lists nl).servers_no_first =
        (populate_node_lists nl).servers.tail ∧
      (populate_node_lists nl₂).server_master =
        (populate_node_lists nl).server_master := by
  intro nl nl₂ hk hperm
  obtain ⟨f1, f2, f3, f4, f5, f6⟩ := populate_node_lists_fields nl
  obtain ⟨g1, g2, g3, g4, g5, g6⟩ := populate_node_lists_fields nl₂
  refine ⟨⟨?_, ?_, ?_, ?_⟩, ⟨?_, ?_, ?_, ?_⟩, ?_, ?_, ?_, ?_⟩
  · rw [f1]; exact pySortVms_sorted _
  · rw [f2]; exact pySortVms_sorted _
  · rw [f3]; exact pySortVms_sorted _
  · rw [f4]; exact pySortVms_sorted _
  · rw [f1]; exact pySortVms_perm _
  · rw [f2]; exact pySortVms_perm _
  · rw [f3]; exact pySortVms_perm _
  · rw [f4]; exact pySortVms_perm _
  · rw [f5, f1]
  · rw [f5]
    rw [List.head?_eq_none_iff]
    constructor
    · intro h
      have : nl.servers.Perm ([] : List VMIdentifier) := by
        rw [← h]
        exact (pySortVms_perm nl.servers).symm
      exact this.eq_nil
    · intro h
      have : (pySortVms nl.servers).Perm ([] : List VMIdentifier) := by
        rw [← h]
        exact pySortVms_perm nl.servers
      exact this.eq_nil
  · rw [f6, f1]
  · rw [g5, f5, pySortVms_deterministic hperm ((hperm.map sortKey).nodup_iff.mpr hk)]

/-- C6 witness: two permutations of the server set `{pve2:200, pve1:100,
pve1:101}` populate to the same master, `pve1:100`. -/
theorem populate_node_lists_spec_witness :
    (demoNodeListsA.servers.map sortKey).Nodup ∧
    demoNodeListsB.servers.Perm demoNodeListsA.servers ∧
    (populate_node_lists demoNodeListsB).server_master =
      (populate_node_lists demoNodeListsA).server_master ∧
    (populate_node_lists demoNodeListsA).server_master = some demoVm100 :=
  ⟨by decide, by decide,
   (populate_node_lists_spec demoNodeListsA demoNodeListsB
     (by decide) (by decide)).2.2.2.2.2,
   by decide⟩

/-! ## C5 -/

theorem effectiveConfig_fresh {nc : NodeCtx} (h : nc.cfg0.ipconfig = none) :
    effectiveConfig nc = nc.cfg_fetch := by
  unfold effectiveConfig
  simp [h]

/-- After a successful write, the written map needs no further update for
the same targets (with `force = false`). -/
theorem needs_update_after_write (t : ConvTargets) (ssh : Option String)
    (cfg : VmConfigMap) (n : Nat) :
    needs_update false
      (applyNetworkWrite (targetIpconfigValue t n) (targetNameserverValue t)
        t.search_domain ssh cfg)
      (targetIpconfigValue t n) (targetNameserverValue t) t.search_domain = false := by
  cases h1 : (targetNameserverValue t != "") <;> cases h2 : (t.search_domain != "") <;>
    simp [needs_update, applyNetworkWrite, h1, h2]

theorem bumpCursor_mk (n : Nat) (m r : List VMIdentifier) :
    bumpCursor { next_ip_to_assign_int := n, modified_vms := m, running_modified_vms := r } =
      { next_ip_to_assign_int := n + 1, modified_vms := m, running_modified_vms := r } := rfl

/-- Core induction for the idempotence claim: a second pass whose nodes
observe the first pass's post-pass maps performs no writes — its ledger
lists stay whatever they started as, and its cursor tracks the first
pass's cursor (first pass free of fetch failures and write failures). -/
theorem run2_loop_no_new_writes (t : ConvTargets) (ssh : Option String) (e : Nat) :
    ∀ (ncs₁ : List NodeCtx) (st₁ : ConvState) (m₂ rm₂ : List VMIdentifier) (n₂ : Nat)
      (ncs₂ : List NodeCtx),
      n₂ = st₁.next_ip_to_assign_int →
      (∀ oc ∈ (configureVmsLoop t ssh false e st₁ ncs₁).2,
        oc.1 ≠ NodeOutcome.fetchFailed ∧ oc.1 ≠ NodeOutcome.writeFailed) →
      List.Forall₂ observesPostState (configureVmsLoop t ssh false e st₁ ncs₁).2 ncs₂ →
      (configureVmsLoop t ssh false e
        { next_ip_to_assign_int := n₂, modified_vms := m₂, running_modified_vms := rm₂ }
        ncs₂).1 =
      { next_ip_to_assign_int :=
          (configureVmsLoop t ssh false e st₁ ncs₁).1.next_ip_to_assign_int
        modified_vms := m₂
        running_modified_vms := rm₂ } := by
  intro ncs₁
  induction ncs₁ with
  | nil =>
    intro st₁ m₂ rm₂ n₂ ncs₂ hn h hrel
    subst hn
    have h0 : (configureVmsLoop t ssh false e st₁ []).2 = [] := rfl
    rw [h0] at hrel
    cases hrel
    rfl
  | cons nc₁ rest ih =>
    intro st₁ m₂ rm₂ n₂ ncs₂ hn h hrel
    subst hn
    rw [configureVmsLoop_cons] at h hrel ⊢
    cases hrel with
    | cons hhead htailrel =>
    rename_i nc₂ rest₂
    have hmem := h (processNode t ssh false e st₁ nc₁).2 (List.mem_cons_self _ _)
    have htail : ∀ oc ∈ (configureVmsLoop t ssh false e
        (processNode t ssh false e st₁ nc₁).1 rest).2,
        oc.1 ≠ NodeOutcome.fetchFailed ∧ oc.1 ≠ NodeOutcome.writeFailed :=
      fun oc hm => h oc (List.mem_cons_of_mem _ hm)
    have hfresh : nc₂.cfg0.ipconfig = none := hhead.1
    rcases processNode_cases t ssh false e st₁ nc₁ with
      ⟨-, heq⟩ | ⟨cfg, heff, hgt, heq⟩ | ⟨cfg, heff, hle, hnu, heq⟩ |
      ⟨cfg, heff, hle, hnu, hwok, heq⟩ | ⟨cfg, heff, hle, hnu, hwok, heq⟩
    · rw [heq] at hmem
      exact absurd rfl hmem.1
    · -- exhausted in run 1: run 2 exhausts at the same cursor
      have heff₂ : effectiveConfig nc₂ = .ok cfg := by
        rw [effectiveConfig_fresh hfresh, hhead.2, heq]
      have hstep₂ := @processNode_exhausted t ssh false e
        { next_ip_to_assign_int := st₁.next_ip_to_assign_int
          modified_vms := m₂
          running_modified_vms := rm₂ } nc₂ cfg heff₂ hgt
      rw [configureVmsLoop_cons, hstep₂, heq]
      exact ih st₁ m₂ rm₂ st₁.next_ip_to_assign_int rest₂ rfl
        (by rw [heq] at htail; exact htail) (by rw [heq] at htailrel; exact htailrel)
    · -- skipped in run 1: still no update needed in run 2
      have heff₂ : effectiveConfig nc₂ = .ok cfg := by
        rw [effectiveConfig_fresh hfresh, hhead.2, heq]
      have hstep₂ := @processNode_skipped t ssh false e
        { next_ip_to_assign_int := st₁.next_ip_to_assign_int
          modified_vms := m₂
          running_modified_vms := rm₂ } nc₂ cfg heff₂ hle hnu
      rw [configureVmsLoop_cons, hstep₂, bumpCursor_mk, heq]
      exact ih (bumpCursor st₁) m₂ rm₂ (st₁.next_ip_to_assign_int + 1) rest₂ rfl
        (by rw [heq] at htail; exact htail) (by rw [heq] at htailrel; exact htailrel)
    · -- written in run 1: the written map matches the target in run 2
      have heff₂ : effectiveConfig nc₂ = .ok
          (applyNetworkWrite (targetIpconfigValue t st₁.next_ip_to_assign_int)
            (targetNameserverValue t) t.search_domain ssh cfg) := by
        rw [effectiveConfig_fresh hfresh, hhead.2, heq]
      have hstep₂ := @processNode_skipped t ssh false e
        { next_ip_to_assign_int := st₁.next_ip_to_assign_int
          modified_vms := m₂
          running_modified_vms := rm₂ } nc₂ _ heff₂ hle
        (needs_update_after_write t ssh cfg st₁.next_ip_to_assign_int)
      rw [configureVmsLoop_cons, hstep₂, bumpCursor_mk, heq]
      exact ih (recordWrite st₁ nc₁) m₂ rm₂ (st₁.next_ip_to_assign_int + 1) rest₂ rfl
        (by rw [heq] at htail; exact htail) (by rw [heq] at htailrel; exact htailrel)
    · rw [heq] at hmem
      exact absurd rfl hmem.2

/-- C5: running the convergence loop a second time over the same node
sequence with the same targets, `force = false` and no drift — every
second-run node observes exactly the attribute map the first run left for
it — yields an empty modification ledger (and empty running subset) on
the second run, provided the first run had no fetch failures and no write
failures (a node the first run failed to fetch or write is still
divergent, so drift-freedom requires those branches absent). -/
theorem convergence_second_run_empty_ledger (t : ConvTargets) (ssh : Option String)
    (e n₀ : Nat) (ncs₁ ncs₂ : List NodeCtx)
    (h₁ : ∀ oc ∈ (configureVmsLoop t ssh false e
        { next_ip_to_assign_int := n₀, modified_vms := [], running_modified_vms := [] }
        ncs₁).2,
      oc.1 ≠ NodeOutcome.fetchFailed ∧ oc.1 ≠ NodeOutcome.writeFailed)
    (h₂ : List.Forall₂ observesPostState
      (configureVmsLoop t ssh false e
        { next_ip_to_assign_int := n₀, modified_vms := [], running_modified_vms := [] }
        ncs₁).2 ncs₂) :
    (configureVmsLoop t ssh false e
      { next_ip_to_assign_int := n₀, modified_vms := [], running_modified_vms := [] }
      ncs₂).1.modified_vms = [] ∧
    (configureVmsLoop t ssh false e
      { next_ip_to_assign_int := n₀, modified_vms := [], running_modified_vms := [] }
      ncs₂).1.running_modified_vms = [] := by
  have := run2_loop_no_new_writes t ssh e ncs₁
    { next_ip_to_assign_int := n₀, modified_vms := [], running_modified_vms := [] }
    [] [] n₀ ncs₂ rfl h₁ h₂
  rw [this]
  exact ⟨rfl, rfl⟩

/-- C5 witness: two fresh nodes are written in run 1; run 2, observing
the written maps, produces an empty ledger. -/
theorem convergence_second_run_empty_ledger_witness :
    (∀ oc ∈ (configureVmsLoop demoTargets none false demoRangeEnd
        { next_ip_to_assign_int := demoRangeStart, modified_vms := [],
          running_modified_vms := [] }
        [demoFreshNode demoVm100, demoFreshNode demoVm101]).2,
      oc.1 ≠ NodeOutcome.fetchFailed ∧ oc.1 ≠ NodeOutcome.writeFailed) ∧
    List.Forall₂ observesPostState
      (configureVmsLoop demoTargets none false demoRangeEnd
        { next_ip_to_assign_int := demoRangeStart, modified_vms := [],
          running_modified_vms := [] }
        [demoFreshNode demoVm100, demoFreshNode demoVm101]).2
      [demoSecondRunNode demoVm100 demoRangeStart,
       demoSecondRunNode demoVm101 (demoRangeStart + 1)] ∧
    (configureVmsLoop demoTargets none false demoRangeEnd
      { next_ip_to_assign_int := demoRangeStart, modified_vms := [],
        running_modified_vms := [] }
      [demoSecondRunNode demoVm100 demoRangeStart,
       demoSecondRunNode demoVm101 (demoRangeStart + 1)]).1.modified_vms = [] :=
  ⟨by decide,
   .cons ⟨rfl, rfl⟩ (.cons ⟨rfl, rfl⟩ .nil),
   (convergence_second_run_empty_ledger demoTargets none demoRangeEnd demoRangeStart
     [demoFreshNode demoVm100, demoFreshNode demoVm101]
     [demoSecondRunNode demoVm100 demoRangeStart,
      demoSecondRunNode demoVm101 (demoRangeStart + 1)]
     (by decide) (.cons ⟨rfl, rfl⟩ (.cons ⟨rfl, rfl⟩ .nil))).1⟩

end K3sDeploy
